import Mathlib

set_option autoImplicit false

/-!
Shallow embedding of the discovery and route lifecycle core of the
zenoh ROS2 bridge plugin (sources: node_info.rs, discovered_entities.rs,
routes_mgr.rs, route_publisher.rs, route_subscriber.rs, config.rs,
qos_helpers.rs).  Rust HashMaps are modelled as association lists with
insertion-order iteration; machine integers are modelled as Nat / Int with
explicit range conditions where overflow or casts matter; Rust panics are
modelled by an Option-valued result (none = panic).
-/

/-- Modelled from the spec: `Gid` is a 16-byte entity identifier with a
well-known sentinel `NOT_DISCOVERED` marking slots awaiting resolution
(the `gid` module is referenced by the sources but not itself provided).
We model it as an opaque natural number; the sentinel is the `Default`
value, as the completeness predicates of `node_info.rs` assume. -/
abbrev Gid := Nat

def Gid.NOT_DISCOVERED : Gid := 0

/-- `cyclors::qos::ReliabilityKind` (collaborator contract): an enum with an
opaque numeric encoding; we fix an injective encoding with matching decoder. -/
inductive ReliabilityKind where
  | BEST_EFFORT
  | RELIABLE
  deriving DecidableEq, Repr

def ReliabilityKind.toCode : ReliabilityKind → Nat
  | .BEST_EFFORT => 0
  | .RELIABLE => 1

def ReliabilityKind.fromCode (n : Nat) : ReliabilityKind :=
  if n = 1 then .RELIABLE else .BEST_EFFORT

/-- `cyclors::qos::DurabilityKind` (collaborator contract). -/
inductive DurabilityKind where
  | VOLATILE
  | TRANSIENT_LOCAL
  | TRANSIENT
  | PERSISTENT
  deriving DecidableEq, Repr

def DurabilityKind.toCode : DurabilityKind → Nat
  | .VOLATILE => 0
  | .TRANSIENT_LOCAL => 1
  | .TRANSIENT => 2
  | .PERSISTENT => 3

def DurabilityKind.fromCode (n : Nat) : DurabilityKind :=
  if n = 1 then .TRANSIENT_LOCAL
  else if n = 2 then .TRANSIENT
  else if n = 3 then .PERSISTENT
  else .VOLATILE

/-- `cyclors::qos::HistoryKind` (collaborator contract). -/
inductive HistoryKind where
  | KEEP_LAST
  | KEEP_ALL
  deriving DecidableEq, Repr

def HistoryKind.toCode : HistoryKind → Nat
  | .KEEP_LAST => 0
  | .KEEP_ALL => 1

def HistoryKind.fromCode (n : Nat) : HistoryKind :=
  if n = 1 then .KEEP_ALL else .KEEP_LAST

/-- DDS `DDS_LENGTH_UNLIMITED` constant (an i32 value). -/
def DDS_LENGTH_UNLIMITED : Int := -1

/-- DDS 100 ms duration (nanoseconds). -/
def DDS_100MS_DURATION : Nat := 100000000

/-- `cyclors::qos::Reliability`: kind plus max blocking time (a duration). -/
structure Reliability where
  kind : ReliabilityKind
  max_blocking_time : Nat
  deriving DecidableEq, Repr

structure Durability where
  kind : DurabilityKind
  deriving DecidableEq, Repr

/-- `cyclors::qos::History`: kind plus an i32 depth. -/
structure History where
  kind : HistoryKind
  depth : Int
  deriving DecidableEq, Repr

def History.default : History := { kind := .KEEP_LAST, depth := 1 }

/-- `cyclors::qos::DurabilityService` (fields are i32 / duration values). -/
structure DurabilityService where
  service_cleanup_delay : Nat
  history_kind : HistoryKind
  history_depth : Int
  max_samples : Int
  max_instances : Int
  max_samples_per_instance : Int
  deriving DecidableEq, Repr

def DurabilityService.default : DurabilityService :=
  { service_cleanup_delay := 0, history_kind := .KEEP_LAST, history_depth := 1,
    max_samples := DDS_LENGTH_UNLIMITED, max_instances := DDS_LENGTH_UNLIMITED,
    max_samples_per_instance := DDS_LENGTH_UNLIMITED }

/-- The QoS descriptor, restricted to the fields the embedded code reads:
`reliability`, `durability`, `history`, `durability_service` (the remaining
cyclors QoS fields are never read by the embedded functions). `Qos::default()`
has every field unset. -/
structure Qos where
  reliability : Option Reliability := none
  durability : Option Durability := none
  history : Option History := none
  durability_service : Option DurabilityService := none
  deriving DecidableEq, Repr

def Qos.default : Qos := {}

/-- qos_helpers.rs: `get_history_or_default`. -/
def get_history_or_default (qos : Qos) : History :=
  match qos.history with
  | none => History.default
  | some history => history

/-- qos_helpers.rs: `get_durability_service_or_default`. -/
def get_durability_service_or_default (qos : Qos) : DurabilityService :=
  match qos.durability_service with
  | none => DurabilityService.default
  | some ds => ds

/-- qos_helpers.rs: `is_transient_local`. -/
def is_transient_local (qos : Qos) : Bool :=
  match qos.durability with
  | none => false
  | some durability => durability.kind = DurabilityKind.TRANSIENT_LOCAL

/-- Modelled from the spec: an endpoint (`dds_discovery::DdsEntity`, whose
module is referenced by the sources but not itself provided):
key, participant key, topic name, type name, keyless flag and QoS. -/
structure DdsEntity where
  key : Gid
  participant_key : Gid
  topic_name : String
  type_name : String
  keyless : Bool
  qos : Qos
  deriving DecidableEq, Repr

/-- node_info.rs: `TopicPub`. -/
structure TopicPub where
  name : String
  typ : String
  writer : Gid
  deriving DecidableEq, Repr

/-- node_info.rs: `TopicSub`. -/
structure TopicSub where
  name : String
  typ : String
  reader : Gid
  deriving DecidableEq, Repr

/-- node_info.rs: `ServiceSrvEntities`. -/
structure ServiceSrvEntities where
  req_reader : Gid
  rep_writer : Gid
  deriving DecidableEq, Repr

def ServiceSrvEntities.default : ServiceSrvEntities :=
  { req_reader := Gid.NOT_DISCOVERED, rep_writer := Gid.NOT_DISCOVERED }

/-- node_info.rs: `ServiceSrvEntities::is_complete`. -/
def ServiceSrvEntities.is_complete (e : ServiceSrvEntities) : Bool :=
  e.req_reader ≠ Gid.NOT_DISCOVERED && e.rep_writer ≠ Gid.NOT_DISCOVERED

/-- node_info.rs: `ServiceSrv`. -/
structure ServiceSrv where
  name : String
  typ : String
  entities : ServiceSrvEntities
  deriving DecidableEq, Repr

def ServiceSrv.create (name typ : String) : ServiceSrv :=
  { name := name, typ := typ, entities := ServiceSrvEntities.default }

def ServiceSrv.is_complete (s : ServiceSrv) : Bool := s.entities.is_complete

/-- node_info.rs: `ServiceCliEntities`. -/
structure ServiceCliEntities where
  req_writer : Gid
  rep_reader : Gid
  deriving DecidableEq, Repr

def ServiceCliEntities.default : ServiceCliEntities :=
  { req_writer := Gid.NOT_DISCOVERED, rep_reader := Gid.NOT_DISCOVERED }

/-- node_info.rs: `ServiceCliEntities::is_complete`. -/
def ServiceCliEntities.is_complete (e : ServiceCliEntities) : Bool :=
  e.rep_reader ≠ Gid.NOT_DISCOVERED && e.req_writer ≠ Gid.NOT_DISCOVERED

/-- node_info.rs: `ServiceCli`. -/
structure ServiceCli where
  name : String
  typ : String
  entities : ServiceCliEntities
  deriving DecidableEq, Repr

def ServiceCli.create (name typ : String) : ServiceCli :=
  { name := name, typ := typ, entities := ServiceCliEntities.default }

def ServiceCli.is_complete (s : ServiceCli) : Bool := s.entities.is_complete

/-- node_info.rs: `ActionSrvEntities`. -/
structure ActionSrvEntities where
  send_goal : ServiceSrvEntities
  cancel_goal : ServiceSrvEntities
  get_result : ServiceSrvEntities
  status_writer : Gid
  feedback_writer : Gid
  deriving DecidableEq, Repr

def ActionSrvEntities.default : ActionSrvEntities :=
  { send_goal := ServiceSrvEntities.default, cancel_goal := ServiceSrvEntities.default,
    get_result := ServiceSrvEntities.default,
    status_writer := Gid.NOT_DISCOVERED, feedback_writer := Gid.NOT_DISCOVERED }

/-- node_info.rs: `ActionSrvEntities::is_complete`. -/
def ActionSrvEntities.is_complete (e : ActionSrvEntities) : Bool :=
  e.send_goal.is_complete && e.cancel_goal.is_complete && e.get_result.is_complete
    && e.status_writer ≠ Gid.NOT_DISCOVERED && e.feedback_writer ≠ Gid.NOT_DISCOVERED

/-- node_info.rs: `ActionSrv`. -/
structure ActionSrv where
  name : String
  typ : String
  entities : ActionSrvEntities
  deriving DecidableEq, Repr

def ActionSrv.create (name typ : String) : ActionSrv :=
  { name := name, typ := typ, entities := ActionSrvEntities.default }

def ActionSrv.is_complete (s : ActionSrv) : Bool := s.entities.is_complete

/-- node_info.rs: `ActionCliEntities`. -/
structure ActionCliEntities where
  send_goal : ServiceCliEntities
  cancel_goal : ServiceCliEntities
  get_result : ServiceCliEntities
  status_reader : Gid
  feedback_reader : Gid
  deriving DecidableEq, Repr

def ActionCliEntities.default : ActionCliEntities :=
  { send_goal := ServiceCliEntities.default, cancel_goal := ServiceCliEntities.default,
    get_result := ServiceCliEntities.default,
    status_reader := Gid.NOT_DISCOVERED, feedback_reader := Gid.NOT_DISCOVERED }

/-- node_info.rs: `ActionCliEntities::is_complete`. -/
def ActionCliEntities.is_complete (e : ActionCliEntities) : Bool :=
  e.send_goal.is_complete && e.cancel_goal.is_complete && e.get_result.is_complete
    && e.status_reader ≠ Gid.NOT_DISCOVERED && e.feedback_reader ≠ Gid.NOT_DISCOVERED

/-- node_info.rs: `ActionCli`. -/
structure ActionCli where
  name : String
  typ : String
  entities : ActionCliEntities
  deriving DecidableEq, Repr

def ActionCli.create (name typ : String) : ActionCli :=
  { name := name, typ := typ, entities := ActionCliEntities.default }

def ActionCli.is_complete (s : ActionCli) : Bool := s.entities.is_complete

/-- The `ROS2DiscoveryEvent` enum, with the payloads the constructing code in
node_info.rs and the consuming match in routes_mgr.rs use: a node full name
and the interface value (the stale one-argument declaration in
discovered_entities.rs disagrees with every construction and use site). -/
inductive ROS2DiscoveryEvent where
  | DiscoveredTopicPub (node : String) (iface : TopicPub)
  | UndiscoveredTopicPub (node : String) (iface : TopicPub)
  | DiscoveredTopicSub (node : String) (iface : TopicSub)
  | UndiscoveredTopicSub (node : String) (iface : TopicSub)
  | DiscoveredServiceSrv (node : String) (iface : ServiceSrv)
  | UndiscoveredServiceSrv (node : String) (iface : ServiceSrv)
  | DiscoveredServiceCli (node : String) (iface : ServiceCli)
  | UndiscoveredServiceCli (node : String) (iface : ServiceCli)
  | DiscoveredActionSrv (node : String) (iface : ActionSrv)
  | UndiscoveredActionSrv (node : String) (iface : ActionSrv)
  | DiscoveredActionCli (node : String) (iface : ActionCli)
  | UndiscoveredActionCli (node : String) (iface : ActionCli)
  deriving DecidableEq, Repr

/-- True for the six `Undiscovered*` variants. -/
def ROS2DiscoveryEvent.isUndiscovered : ROS2DiscoveryEvent → Bool
  | .UndiscoveredTopicPub _ _ | .UndiscoveredTopicSub _ _
  | .UndiscoveredServiceSrv _ _ | .UndiscoveredServiceCli _ _
  | .UndiscoveredActionSrv _ _ | .UndiscoveredActionCli _ _ => true
  | _ => false

/-- Lookup in an association list (model of `HashMap::get`). -/
def alookup {κ α : Type} [BEq κ] (m : List (κ × α)) (k : κ) : Option α :=
  (m.find? (fun p => p.1 == k)).map (fun p => p.2)

/-- Insert-or-replace in an association list (model of `HashMap::insert` and
of writing through an occupied `Entry`); a new key is appended, an existing
key is replaced in place. -/
def ainsert {κ α : Type} [BEq κ] (m : List (κ × α)) (k : κ) (v : α) : List (κ × α) :=
  if (alookup m k).isSome then
    m.map (fun p => if p.1 == k then (k, v) else p)
  else
    m ++ [(k, v)]

/-- Key removal from an association list (model of `HashMap::remove`). -/
def aerase {κ α : Type} [BEq κ] (m : List (κ × α)) (k : κ) : List (κ × α) :=
  m.filter (fun p => !(p.1 == k))

/-- node_info.rs: `NodeInfo`. -/
structure NodeInfo where
  fullname : String
  node_name_idx : Nat
  participant : Gid
  topic_pub : List (String × TopicPub)
  topic_sub : List (String × TopicSub)
  service_srv : List (String × ServiceSrv)
  service_cli : List (String × ServiceCli)
  action_srv : List (String × ActionSrv)
  action_cli : List (String × ActionCli)
  undiscovered_reader : List Gid
  undiscovered_writer : List Gid
  deriving DecidableEq, Repr

/-- node_info.rs: `NodeInfo::create`. -/
def NodeInfo.create (namespace_ : String) (node_name : String) (participant : Gid) : NodeInfo :=
  let fn_idx : String × Nat :=
    if namespace_ = "/" then ("/" ++ node_name, 1)
    else (namespace_ ++ "/" ++ node_name, namespace_.length + 1)
  { fullname := fn_idx.1, node_name_idx := fn_idx.2, participant := participant,
    topic_pub := [], topic_sub := [], service_srv := [], service_cli := [],
    action_srv := [], action_cli := [],
    undiscovered_reader := [], undiscovered_writer := [] }

/-- node_info.rs: `NodeInfo::update_topic_pub`. -/
def NodeInfo.update_topic_pub (n : NodeInfo) (name typ : String) (writer : Gid) :
    NodeInfo × Option ROS2DiscoveryEvent :=
  match alookup n.topic_pub name with
  | none =>
      let tpub : TopicPub := { name := name, typ := typ, writer := writer }
      ({ n with topic_pub := n.topic_pub ++ [(name, tpub)] },
       some (.DiscoveredTopicPub n.fullname tpub))
  | some v0 =>
      let s1 : TopicPub × Option ROS2DiscoveryEvent :=
        if v0.typ ≠ typ then
          let v1 := { v0 with typ := typ }
          (v1, some (.DiscoveredTopicPub n.fullname v1))
        else (v0, none)
      let s2 : TopicPub × Option ROS2DiscoveryEvent :=
        if s1.1.writer ≠ writer then
          let v2 := { s1.1 with writer := writer }
          (v2, some (.DiscoveredTopicPub n.fullname v2))
        else s1
      ({ n with topic_pub := ainsert n.topic_pub name s2.1 }, s2.2)

/-- node_info.rs: `NodeInfo::update_topic_sub`. -/
def NodeInfo.update_topic_sub (n : NodeInfo) (name typ : String) (reader : Gid) :
    NodeInfo × Option ROS2DiscoveryEvent :=
  match alookup n.topic_sub name with
  | none =>
      let tsub : TopicSub := { name := name, typ := typ, reader := reader }
      ({ n with topic_sub := n.topic_sub ++ [(name, tsub)] },
       some (.DiscoveredTopicSub n.fullname tsub))
  | some v0 =>
      let s1 : TopicSub × Option ROS2DiscoveryEvent :=
        if v0.typ ≠ typ then
          let v1 := { v0 with typ := typ }
          (v1, some (.DiscoveredTopicSub n.fullname v1))
        else (v0, none)
      let s2 : TopicSub × Option ROS2DiscoveryEvent :=
        if s1.1.reader ≠ reader then
          let v2 := { s1.1 with reader := reader }
          (v2, some (.DiscoveredTopicSub n.fullname v2))
        else s1
      ({ n with topic_sub := ainsert n.topic_sub name s2.1 }, s2.2)

/-- node_info.rs: `NodeInfo::update_service_srv_req_reader`. -/
def NodeInfo.update_service_srv_req_reader (n : NodeInfo) (name : String) (typ : String)
    (reader : Gid) : NodeInfo × Option ROS2DiscoveryEvent :=
  match alookup n.service_srv name with
  | none =>
      let v : ServiceSrv :=
        { ServiceSrv.create name typ with
          entities := { ServiceSrvEntities.default with req_reader := reader } }
      ({ n with service_srv := n.service_srv ++ [(name, v)] }, none)
  | some v0 =>
      let s1 : ServiceSrv × Option ROS2DiscoveryEvent :=
        if v0.typ ≠ typ then
          let v1 := { v0 with typ := typ }
          (v1, if v1.is_complete then some (.DiscoveredServiceSrv n.fullname v1) else none)
        else (v0, none)
      let s2 : ServiceSrv × Option ROS2DiscoveryEvent :=
        if s1.1.entities.req_reader ≠ reader then
          let v2 := { s1.1 with entities := { s1.1.entities with req_reader := reader } }
          (v2, if v2.is_complete then some (.DiscoveredServiceSrv n.fullname v2) else s1.2)
        else s1
      ({ n with service_srv := ainsert n.service_srv name s2.1 }, s2.2)

/-- node_info.rs: `NodeInfo::update_service_srv_rep_writer`. -/
def NodeInfo.update_service_srv_rep_writer (n : NodeInfo) (name : String) (typ : String)
    (writer : Gid) : NodeInfo × Option ROS2DiscoveryEvent :=
  match alookup n.service_srv name with
  | none =>
      let v : ServiceSrv :=
        { ServiceSrv.create name typ with
          entities := { ServiceSrvEntities.default with rep_writer := writer } }
      ({ n with service_srv := n.service_srv ++ [(name, v)] }, none)
  | some v0 =>
      let s1 : ServiceSrv × Option ROS2DiscoveryEvent :=
        if v0.typ ≠ typ then
          let v1 := { v0 with typ := typ }
          (v1, if v1.is_complete then some (.DiscoveredServiceSrv n.fullname v1) else none)
        else (v0, none)
      let s2 : ServiceSrv × Option ROS2DiscoveryEvent :=
        if s1.1.entities.rep_writer ≠ writer then
          let v2 := { s1.1 with entities := { s1.1.entities with rep_writer := writer } }
          (v2, if v2.is_complete then some (.DiscoveredServiceSrv n.fullname v2) else s1.2)
        else s1
      ({ n with service_srv := ainsert n.service_srv name s2.1 }, s2.2)

/-- node_info.rs: `NodeInfo::update_service_cli_rep_reader`. -/
def NodeInfo.update_service_cli_rep_reader (n : NodeInfo) (name : String) (typ : String)
    (reader : Gid) : NodeInfo × Option ROS2DiscoveryEvent :=
  match alookup n.service_cli name with
  | none =>
      let v : ServiceCli :=
        { ServiceCli.create name typ with
          entities := { ServiceCliEntities.default with rep_reader := reader } }
      ({ n with service_cli := n.service_cli ++ [(name, v)] }, none)
  | some v0 =>
      let s1 : ServiceCli × Option ROS2DiscoveryEvent :=
        if v0.typ ≠ typ then
          let v1 := { v0 with typ := typ }
          (v1, if v1.is_complete then some (.DiscoveredServiceCli n.fullname v1) else none)
        else (v0, none)
      let s2 : ServiceCli × Option ROS2DiscoveryEvent :=
        if s1.1.entities.rep_reader ≠ reader then
          let v2 := { s1.1 with entities := { s1.1.entities with rep_reader := reader } }
          (v2, if v2.is_complete then some (.DiscoveredServiceCli n.fullname v2) else s1.2)
        else s1
      ({ n with service_cli := ainsert n.service_cli name s2.1 }, s2.2)

/-- node_info.rs: `NodeInfo::update_service_cli_req_writer`. -/
def NodeInfo.update_service_cli_req_writer (n : NodeInfo) (name : String) (typ : String)
    (writer : Gid) : NodeInfo × Option ROS2DiscoveryEvent :=
  match alookup n.service_cli name with
  | none =>
      let v : ServiceCli :=
        { ServiceCli.create name typ with
          entities := { ServiceCliEntities.default with req_writer := writer } }
      ({ n with service_cli := n.service_cli ++ [(name, v)] }, none)
  | some v0 =>
      let s1 : ServiceCli × Option ROS2DiscoveryEvent :=
        if v0.typ ≠ typ then
          let v1 := { v0 with typ := typ }
          (v1, if v1.is_complete then some (.DiscoveredServiceCli n.fullname v1) else none)
        else (v0, none)
      let s2 : ServiceCli × Option ROS2DiscoveryEvent :=
        if s1.1.entities.req_writer ≠ writer then
          let v2 := { s1.1 with entities := { s1.1.entities with req_writer := writer } }
          (v2, if v2.is_complete then some (.DiscoveredServiceCli n.fullname v2) else s1.2)
        else s1
      ({ n with service_cli := ainsert n.service_cli name s2.1 }, s2.2)

/-- node_info.rs: `NodeInfo::update_action_srv_send_req_reader`. -/
def NodeInfo.update_action_srv_send_req_reader (n : NodeInfo) (name : String) (typ : String)
    (reader : Gid) : NodeInfo × Option ROS2DiscoveryEvent :=
  match alookup n.action_srv name with
  | none =>
      let v : ActionSrv :=
        { ActionSrv.create name typ with
          entities := { ActionSrvEntities.default with
            send_goal := { ServiceSrvEntities.default with req_reader := reader } } }
      ({ n with action_srv := n.action_srv ++ [(name, v)] }, none)
  | some v0 =>
      let s1 : ActionSrv × Option ROS2DiscoveryEvent :=
        if v0.typ ≠ typ then
          let v1 := { v0 with typ := typ }
          (v1, if v1.is_complete then some (.DiscoveredActionSrv n.fullname v1) else none)
        else (v0, none)
      let s2 : ActionSrv × Option ROS2DiscoveryEvent :=
        if s1.1.entities.send_goal.req_reader ≠ reader then
          let v2 := { s1.1 with entities := { s1.1.entities with
            send_goal := { s1.1.entities.send_goal with req_reader := reader } } }
          (v2, if v2.is_complete then some (.DiscoveredActionSrv n.fullname v2) else s1.2)
        else s1
      ({ n with action_srv := ainsert n.action_srv name s2.1 }, s2.2)

/-- node_info.rs: `NodeInfo::update_action_srv_send_rep_writer`. -/
def NodeInfo.update_action_srv_send_rep_writer (n : NodeInfo) (name : String) (typ : String)
    (writer : Gid) : NodeInfo × Option ROS2DiscoveryEvent :=
  match alookup n.action_srv name with
  | none =>
      let v : ActionSrv :=
        { ActionSrv.create name typ with
          entities := { ActionSrvEntities.default with
            send_goal := { ServiceSrvEntities.default with rep_writer := writer } } }
      ({ n with action_srv := n.action_srv ++ [(name, v)] }, none)
  | some v0 =>
      let s1 : ActionSrv × Option ROS2DiscoveryEvent :=
        if v0.typ ≠ typ then
          let v1 := { v0 with typ := typ }
          (v1, if v1.is_complete then some (.DiscoveredActionSrv n.fullname v1) else none)
        else (v0, none)
      let s2 : ActionSrv × Option ROS2DiscoveryEvent :=
        if s1.1.entities.send_goal.rep_writer ≠ writer then
          let v2 := { s1.1 with entities := { s1.1.entities with
            send_goal := { s1.1.entities.send_goal with rep_writer := writer } } }
          (v2, if v2.is_complete then some (.DiscoveredActionSrv n.fullname v2) else s1.2)
        else s1
      ({ n with action_srv := ainsert n.action_srv name s2.1 }, s2.2)

/-- node_info.rs: `NodeInfo::update_action_srv_cancel_req_reader` (the
CancelGoal topic does not carry the action type: no type update, vacant
entries get an empty type). -/
def NodeInfo.update_action_srv_cancel_req_reader (n : NodeInfo) (name : String)
    (reader : Gid) : NodeInfo × Option ROS2DiscoveryEvent :=
  match alookup n.action_srv name with
  | none =>
      let v : ActionSrv :=
        { ActionSrv.create name "" with
          entities := { ActionSrvEntities.default with
            cancel_goal := { ServiceSrvEntities.default with req_reader := reader } } }
      ({ n with action_srv := n.action_srv ++ [(name, v)] }, none)
  | some v0 =>
      let s2 : ActionSrv × Option ROS2DiscoveryEvent :=
        if v0.entities.cancel_goal.req_reader ≠ reader then
          let v2 := { v0 with entities := { v0.entities with
            cancel_goal := { v0.entities.cancel_goal with req_reader := reader } } }
          (v2, if v2.is_complete then some (.DiscoveredActionSrv n.fullname v2) else none)
        else (v0, none)
      ({ n with action_srv := ainsert n.action_srv name s2.1 }, s2.2)

/-- node_info.rs: `NodeInfo::update_action_srv_cancel_rep_writer`. -/
def NodeInfo.update_action_srv_cancel_rep_writer (n : NodeInfo) (name : String)
    (writer : Gid) : NodeInfo × Option ROS2DiscoveryEvent :=
  match alookup n.action_srv name with
  | none =>
      let v : ActionSrv :=
        { ActionSrv.create name "" with
          entities := { ActionSrvEntities.default with
            cancel_goal := { ServiceSrvEntities.default with rep_writer := writer } } }
      ({ n with action_srv := n.action_srv ++ [(name, v)] }, none)
  | some v0 =>
      let s2 : ActionSrv × Option ROS2DiscoveryEvent :=
        if v0.entities.cancel_goal.rep_writer ≠ writer then
          let v2 := { v0 with entities := { v0.entities with
            cancel_goal := { v0.entities.cancel_goal with rep_writer := writer } } }
          (v2, if v2.is_complete then some (.DiscoveredActionSrv n.fullname v2) else none)
        else (v0, none)
      ({ n with action_srv := ainsert n.action_srv name s2.1 }, s2.2)

/-- node_info.rs: `NodeInfo::update_action_srv_result_req_reader`. -/
def NodeInfo.update_action_srv_result_req_reader (n : NodeInfo) (name : String) (typ : String)
    (reader : Gid) : NodeInfo × Option ROS2DiscoveryEvent :=
  match alookup n.action_srv name with
  | none =>
      let v : ActionSrv :=
        { ActionSrv.create name typ with
          entities := { ActionSrvEntities.default with
            get_result := { ServiceSrvEntities.default with req_reader := reader } } }
      ({ n with action_srv := n.action_srv ++ [(name, v)] }, none)
  | some v0 =>
      let s1 : ActionSrv × Option ROS2DiscoveryEvent :=
        if v0.typ ≠ typ then
          let v1 := { v0 with typ := typ }
          (v1, if v1.is_complete then some (.DiscoveredActionSrv n.fullname v1) else none)
        else (v0, none)
      let s2 : ActionSrv × Option ROS2DiscoveryEvent :=
        if s1.1.entities.get_result.req_reader ≠ reader then
          let v2 := { s1.1 with entities := { s1.1.entities with
            get_result := { s1.1.entities.get_result with req_reader := reader } } }
          (v2, if v2.is_complete then some (.DiscoveredActionSrv n.fullname v2) else s1.2)
        else s1
      ({ n with action_srv := ainsert n.action_srv name s2.1 }, s2.2)

/-- node_info.rs: `NodeInfo::update_action_srv_result_rep_writer`. -/
def NodeInfo.update_action_srv_result_rep_writer (n : NodeInfo) (name : String) (typ : String)
    (writer : Gid) : NodeInfo × Option ROS2DiscoveryEvent :=
  match alookup n.action_srv name with
  | none =>
      let v : ActionSrv :=
        { ActionSrv.create name typ with
          entities := { ActionSrvEntities.default with
            get_result := { ServiceSrvEntities.default with rep_writer := writer } } }
      ({ n with action_srv := n.action_srv ++ [(name, v)] }, none)
  | some v0 =>
      let s1 : ActionSrv × Option ROS2DiscoveryEvent :=
        if v0.typ ≠ typ then
          let v1 := { v0 with typ := typ }
          (v1, if v1.is_complete then some (.DiscoveredActionSrv n.fullname v1) else none)
        else (v0, none)
      let s2 : ActionSrv × Option ROS2DiscoveryEvent :=
        if s1.1.entities.get_result.rep_writer ≠ writer then
          let v2 := { s1.1 with entities := { s1.1.entities with
            get_result := { s1.1.entities.get_result with rep_writer := writer } } }
          (v2, if v2.is_complete then some (.DiscoveredActionSrv n.fullname v2) else s1.2)
        else s1
      ({ n with action_srv := ainsert n.action_srv name s2.1 }, s2.2)

/-- node_info.rs: `NodeInfo::update_action_srv_status_writer` (the Status
topic does not carry the action type). -/
def NodeInfo.update_action_srv_status_writer (n : NodeInfo) (name : String)
    (writer : Gid) : NodeInfo × Option ROS2DiscoveryEvent :=
  match alookup n.action_srv name with
  | none =>
      let v : ActionSrv :=
        { ActionSrv.create name "" with
          entities := { ActionSrvEntities.default with status_writer := writer } }
      ({ n with action_srv := n.action_srv ++ [(name, v)] }, none)
  | some v0 =>
      let s2 : ActionSrv × Option ROS2DiscoveryEvent :=
        if v0.entities.status_writer ≠ writer then
          let v2 := { v0 with entities := { v0.entities with status_writer := writer } }
          (v2, if v2.is_complete then some (.DiscoveredActionSrv n.fullname v2) else none)
        else (v0, none)
      ({ n with action_srv := ainsert n.action_srv name s2.1 }, s2.2)

/-- node_info.rs: `NodeInfo::update_action_srv_feedback_writer`. -/
def NodeInfo.update_action_srv_feedback_writer (n : NodeInfo) (name : String) (typ : String)
    (writer : Gid) : NodeInfo × Option ROS2DiscoveryEvent :=
  match alookup n.action_srv name with
  | none =>
      let v : ActionSrv :=
        { ActionSrv.create name typ with
          entities := { ActionSrvEntities.default with feedback_writer := writer } }
      ({ n with action_srv := n.action_srv ++ [(name, v)] }, none)
  | some v0 =>
      let s1 : ActionSrv × Option ROS2DiscoveryEvent :=
        if v0.typ ≠ typ then
          let v1 := { v0 with typ := typ }
          (v1, if v1.is_complete then some (.DiscoveredActionSrv n.fullname v1) else none)
        else (v0, none)
      let s2 : ActionSrv × Option ROS2DiscoveryEvent :=
        if s1.1.entities.feedback_writer ≠ writer then
          let v2 := { s1.1 with entities := { s1.1.entities with feedback_writer := writer } }
          (v2, if v2.is_complete then some (.DiscoveredActionSrv n.fullname v2) else s1.2)
        else s1
      ({ n with action_srv := ainsert n.action_srv name s2.1 }, s2.2)

/-- node_info.rs: `NodeInfo::update_action_cli_send_rep_reader`. -/
def NodeInfo.update_action_cli_send_rep_reader (n : NodeInfo) (name : String) (typ : String)
    (reader : Gid) : NodeInfo × Option ROS2DiscoveryEvent :=
  match alookup n.action_cli name with
  | none =>
      let v : ActionCli :=
        { ActionCli.create name typ with
          entities := { ActionCliEntities.default with
            send_goal := { ServiceCliEntities.default with rep_reader := reader } } }
      ({ n with action_cli := n.action_cli ++ [(name, v)] }, none)
  | some v0 =>
      let s1 : ActionCli × Option ROS2DiscoveryEvent :=
        if v0.typ ≠ typ then
          let v1 := { v0 with typ := typ }
          (v1, if v1.is_complete then some (.DiscoveredActionCli n.fullname v1) else none)
        else (v0, none)
      let s2 : ActionCli × Option ROS2DiscoveryEvent :=
        if s1.1.entities.send_goal.rep_reader ≠ reader then
          let v2 := { s1.1 with entities := { s1.1.entities with
            send_goal := { s1.1.entities.send_goal with rep_reader := reader } } }
          (v2, if v2.is_complete then some (.DiscoveredActionCli n.fullname v2) else s1.2)
        else s1
      ({ n with action_cli := ainsert n.action_cli name s2.1 }, s2.2)

/-- node_info.rs: `NodeInfo::update_action_cli_send_req_writer`. -/
def NodeInfo.update_action_cli_send_req_writer (n : NodeInfo) (name : String) (typ : String)
    (writer : Gid) : NodeInfo × Option ROS2DiscoveryEvent :=
  match alookup n.action_cli name with
  | none =>
      let v : ActionCli :=
        { ActionCli.create name typ with
          entities := { ActionCliEntities.default with
            send_goal := { ServiceCliEntities.default with req_writer := writer } } }
      ({ n with action_cli := n.action_cli ++ [(name, v)] }, none)
  | some v0 =>
      let s1 : ActionCli × Option ROS2DiscoveryEvent :=
        if v0.typ ≠ typ then
          let v1 := { v0 with typ := typ }
          (v1, if v1.is_complete then some (.DiscoveredActionCli n.fullname v1) else none)
        else (v0, none)
      let s2 : ActionCli × Option ROS2DiscoveryEvent :=
        if s1.1.entities.send_goal.req_writer ≠ writer then
          let v2 := { s1.1 with entities := { s1.1.entities with
            send_goal := { s1.1.entities.send_goal with req_writer := writer } } }
          (v2, if v2.is_complete then some (.DiscoveredActionCli n.fullname v2) else s1.2)
        else s1
      ({ n with action_cli := ainsert n.action_cli name s2.1 }, s2.2)

/-- node_info.rs: `NodeInfo::update_action_cli_cancel_rep_reader`. -/
def NodeInfo.update_action_cli_cancel_rep_reader (n : NodeInfo) (name : String)
    (reader : Gid) : NodeInfo × Option ROS2DiscoveryEvent :=
  match alookup n.action_cli name with
  | none =>
      let v : ActionCli :=
        { ActionCli.create name "" with
          entities := { ActionCliEntities.default with
            cancel_goal := { ServiceCliEntities.default with rep_reader := reader } } }
      ({ n with action_cli := n.action_cli ++ [(name, v)] }, none)
  | some v0 =>
      let s2 : ActionCli × Option ROS2DiscoveryEvent :=
        if v0.entities.cancel_goal.rep_reader ≠ reader then
          let v2 := { v0 with entities := { v0.entities with
            cancel_goal := { v0.entities.cancel_goal with rep_reader := reader } } }
          (v2, if v2.is_complete then some (.DiscoveredActionCli n.fullname v2) else none)
        else (v0, none)
      ({ n with action_cli := ainsert n.action_cli name s2.1 }, s2.2)

/-- node_info.rs: `NodeInfo::update_action_cli_cancel_req_writer`. -/
def NodeInfo.update_action_cli_cancel_req_writer (n : NodeInfo) (name : String)
    (writer : Gid) : NodeInfo × Option ROS2DiscoveryEvent :=
  match alookup n.action_cli name with
  | none =>
      let v : ActionCli :=
        { ActionCli.create name "" with
          entities := { ActionCliEntities.default with
            cancel_goal := { ServiceCliEntities.default with req_writer := writer } } }
      ({ n with action_cli := n.action_cli ++ [(name, v)] }, none)
  | some v0 =>
      let s2 : ActionCli × Option ROS2DiscoveryEvent :=
        if v0.entities.cancel_goal.req_writer ≠ writer then
          let v2 := { v0 with entities := { v0.entities with
            cancel_goal := { v0.entities.cancel_goal with req_writer := writer } } }
          (v2, if v2.is_complete then some (.DiscoveredActionCli n.fullname v2) else none)
        else (v0, none)
      ({ n with action_cli := ainsert n.action_cli name s2.1 }, s2.2)

/-- node_info.rs: `NodeInfo::update_action_cli_result_rep_reader`. -/
def NodeInfo.update_action_cli_result_rep_reader (n : NodeInfo) (name : String) (typ : String)
    (reader : Gid) : NodeInfo × Option ROS2DiscoveryEvent :=
  match alookup n.action_cli name with
  | none =>
      let v : ActionCli :=
        { ActionCli.create name typ with
          entities := { ActionCliEntities.default with
            get_result := { ServiceCliEntities.default with rep_reader := reader } } }
      ({ n with action_cli := n.action_cli ++ [(name, v)] }, none)
  | some v0 =>
      let s1 : ActionCli × Option ROS2DiscoveryEvent :=
        if v0.typ ≠ typ then
          let v1 := { v0 with typ := typ }
          (v1, if v1.is_complete then some (.DiscoveredActionCli n.fullname v1) else none)
        else (v0, none)
      let s2 : ActionCli × Option ROS2DiscoveryEvent :=
        if s1.1.entities.get_result.rep_reader ≠ reader then
          let v2 := { s1.1 with entities := { s1.1.entities with
            get_result := { s1.1.entities.get_result with rep_reader := reader } } }
          (v2, if v2.is_complete then some (.DiscoveredActionCli n.fullname v2) else s1.2)
        else s1
      ({ n with action_cli := ainsert n.action_cli name s2.1 }, s2.2)

/-- node_info.rs: `NodeInfo::update_action_cli_result_req_writer`. -/
def NodeInfo.update_action_cli_result_req_writer (n : NodeInfo) (name : String) (typ : String)
    (writer : Gid) : NodeInfo × Option ROS2DiscoveryEvent :=
  match alookup n.action_cli name with
  | none =>
      let v : ActionCli :=
        { ActionCli.create name typ with
          entities := { ActionCliEntities.default with
            get_result := { ServiceCliEntities.default with req_writer := writer } } }
      ({ n with action_cli := n.action_cli ++ [(name, v)] }, none)
  | some v0 =>
      let s1 : ActionCli × Option ROS2DiscoveryEvent :=
        if v0.typ ≠ typ then
          let v1 := { v0 with typ := typ }
          (v1, if v1.is_complete then some (.DiscoveredActionCli n.fullname v1) else none)
        else (v0, none)
      let s2 : ActionCli × Option ROS2DiscoveryEvent :=
        if s1.1.entities.get_result.req_writer ≠ writer then
          let v2 := { s1.1 with entities := { s1.1.entities with
            get_result := { s1.1.entities.get_result with req_writer := writer } } }
          (v2, if v2.is_complete then some (.DiscoveredActionCli n.fullname v2) else s1.2)
        else s1
      ({ n with action_cli := ainsert n.action_cli name s2.1 }, s2.2)

/-- node_info.rs: `NodeInfo::update_action_cli_status_reader`. -/
def NodeInfo.update_action_cli_status_reader (n : NodeInfo) (name : String)
    (reader : Gid) : NodeInfo × Option ROS2DiscoveryEvent :=
  match alookup n.action_cli name with
  | none =>
      let v : ActionCli :=
        { ActionCli.create name "" with
          entities := { ActionCliEntities.default with status_reader := reader } }
      ({ n with action_cli := n.action_cli ++ [(name, v)] }, none)
  | some v0 =>
      let s2 : ActionCli × Option ROS2DiscoveryEvent :=
        if v0.entities.status_reader ≠ reader then
          let v2 := { v0 with entities := { v0.entities with status_reader := reader } }
          (v2, if v2.is_complete then some (.DiscoveredActionCli n.fullname v2) else none)
        else (v0, none)
      ({ n with action_cli := ainsert n.action_cli name s2.1 }, s2.2)

/-- node_info.rs: `NodeInfo::update_action_cli_feedback_reader`. -/
def NodeInfo.update_action_cli_feedback_reader (n : NodeInfo) (name : String) (typ : String)
    (reader : Gid) : NodeInfo × Option ROS2DiscoveryEvent :=
  match alookup n.action_cli name with
  | none =>
      let v : ActionCli :=
        { ActionCli.create name typ with
          entities := { ActionCliEntities.default with feedback_reader := reader } }
      ({ n with action_cli := n.action_cli ++ [(name, v)] }, none)
  | some v0 =>
      let s1 : ActionCli × Option ROS2DiscoveryEvent :=
        if v0.typ ≠ typ then
          let v1 := { v0 with typ := typ }
          (v1, if v1.is_complete then some (.DiscoveredActionCli n.fullname v1) else none)
        else (v0, none)
      let s2 : ActionCli × Option ROS2DiscoveryEvent :=
        if s1.1.entities.feedback_reader ≠ reader then
          let v2 := { s1.1 with entities := { s1.1.entities with feedback_reader := reader } }
          (v2, if v2.is_complete then some (.DiscoveredActionCli n.fullname v2) else s1.2)
        else s1
      ({ n with action_cli := ainsert n.action_cli name s2.1 }, s2.2)

/-- Rust `str::ends_with` on ASCII strings (modelled at character level). -/
def strEndsWith (s suf : String) : Bool := List.isSuffixOf suf.data s.data

/-- Rust slice `&s[..s.len() - k]` when `s` is known to end with a `k`-byte
ASCII suffix (modelled at character level). -/
def strDropRight (s : String) (k : Nat) : String :=
  String.mk (s.data.take (s.data.length - k))

/-- Rust slice `&s[..k]`; none models the panic when `k` exceeds the length. -/
def strSliceTo (s : String) (k : Nat) : Option String :=
  if k ≤ s.data.length then some (String.mk (s.data.take k)) else none

/-- Rust slice `&s[k..]`; none models the panic when `k` exceeds the length. -/
def strSliceFrom (s : String) (k : Nat) : Option String :=
  if k ≤ s.data.length then some (String.mk (s.data.drop k)) else none

/-- Rust `str::replace` (leftmost non-overlapping occurrences), at character
level, for a non-empty pattern (fuel-based structural recursion; the input
length suffices as fuel since each step consumes at least one character). -/
def listReplaceAux (pat rep : List Char) : Nat → List Char → List Char
  | 0, l => l
  | fuel + 1, l =>
    match l with
    | [] => []
    | c :: t =>
      if List.isPrefixOf pat (c :: t) ∧ pat ≠ [] then
        rep ++ listReplaceAux pat rep fuel ((c :: t).drop pat.length)
      else
        c :: listReplaceAux pat rep fuel t

def listReplace (pat rep l : List Char) : List Char :=
  listReplaceAux pat rep l.length l

def strReplace (s pat rep : String) : String :=
  String.mk (listReplace pat.data rep.data s.data)

/-- Rust `str::strip_suffix` (ASCII, character level). -/
def stripSuffix (s suf : String) : Option String :=
  if strEndsWith s suf then some (strDropRight s suf.data.length) else none

/-- node_info.rs: `dds_pubsub_topic_to_ros`. -/
def dds_pubsub_topic_to_ros (dds_topic : String) : String :=
  let result := strReplace (strReplace dds_topic "::dds_::" "::") "::" "/"
  if strEndsWith result "_" then strDropRight result 1 else result

/-- node_info.rs: `dds_service_topic_to_ros`. -/
def dds_service_topic_to_ros (dds_topic : String) : String :=
  dds_pubsub_topic_to_ros
    (match stripSuffix dds_topic "_Request_" with
     | some s => s
     | none =>
       match stripSuffix dds_topic "_Response_" with
       | some s => s
       | none => dds_topic)

/-- node_info.rs: `dds_action_topic_to_ros`. -/
def dds_action_topic_to_ros (dds_topic : String) : String :=
  dds_pubsub_topic_to_ros
    (match stripSuffix dds_topic "_SendGoal_Request_" with
     | some s => s
     | none =>
       match stripSuffix dds_topic "_SendGoal_Response_" with
       | some s => s
       | none =>
         match stripSuffix dds_topic "_GetResult_Request_" with
         | some s => s
         | none =>
           match stripSuffix dds_topic "_GetResult_Response_" with
           | some s => s
           | none =>
             match stripSuffix dds_topic "_FeedbackMessage_" with
             | some s => s
             | none => dds_topic)

/-- node_info.rs: `NodeInfo::update_with_reader`.  The outer `none` models the
panic of the unconditional slices `&topic_name[..3]` / `&topic_name[2..]`. -/
def NodeInfo.update_with_reader (n : NodeInfo) (entity : DdsEntity) :
    Option (NodeInfo × Option ROS2DiscoveryEvent) :=
  match strSliceTo entity.topic_name 3, strSliceFrom entity.topic_name 2 with
  | some tHead, some tSuffix =>
    some (
      if tHead = "rt/" then
        if strEndsWith tSuffix "/_action/status" then
          n.update_action_cli_status_reader (strDropRight tSuffix 15) entity.key
        else if strEndsWith tSuffix "/_action/feedback" then
          n.update_action_cli_feedback_reader (strDropRight tSuffix 17)
            (dds_action_topic_to_ros entity.type_name) entity.key
        else
          n.update_topic_sub tSuffix (dds_pubsub_topic_to_ros entity.type_name) entity.key
      else if tHead = "rq/" then
        if strEndsWith tSuffix "/_action/send_goalRequest" then
          n.update_action_srv_send_req_reader (strDropRight tSuffix 25)
            (dds_action_topic_to_ros entity.type_name) entity.key
        else if strEndsWith tSuffix "/_action/cancel_goalRequest" then
          n.update_action_srv_cancel_req_reader (strDropRight tSuffix 27) entity.key
        else if strEndsWith tSuffix "/_action/get_resultRequest" then
          n.update_action_srv_result_req_reader (strDropRight tSuffix 26)
            (dds_action_topic_to_ros entity.type_name) entity.key
        else if strEndsWith tSuffix "Request" then
          n.update_service_srv_req_reader (strDropRight tSuffix 7)
            (dds_service_topic_to_ros entity.type_name) entity.key
        else (n, none)
      else if tHead = "rr/" then
        if strEndsWith tSuffix "/_action/send_goalReply" then
          n.update_action_cli_send_rep_reader (strDropRight tSuffix 23)
            (dds_action_topic_to_ros entity.type_name) entity.key
        else if strEndsWith tSuffix "/_action/cancel_goalReply" then
          n.update_action_cli_cancel_rep_reader (strDropRight tSuffix 25) entity.key
        else if strEndsWith tSuffix "/_action/get_resultReply" then
          n.update_action_cli_result_rep_reader (strDropRight tSuffix 24)
            (dds_action_topic_to_ros entity.type_name) entity.key
        else if strEndsWith tSuffix "Reply" then
          n.update_service_cli_rep_reader (strDropRight tSuffix 5)
            (dds_service_topic_to_ros entity.type_name) entity.key
        else (n, none)
      else (n, none))
  | _, _ => none

/-- node_info.rs: `NodeInfo::update_with_writer`.  The outer `none` models the
panic of the unconditional slices `&topic_name[..3]` / `&topic_name[2..]`. -/
def NodeInfo.update_with_writer (n : NodeInfo) (entity : DdsEntity) :
    Option (NodeInfo × Option ROS2DiscoveryEvent) :=
  match strSliceTo entity.topic_name 3, strSliceFrom entity.topic_name 2 with
  | some tHead, some tSuffix =>
    some (
      if tHead = "rt/" then
        if strEndsWith tSuffix "/_action/status" then
          n.update_action_srv_status_writer (strDropRight tSuffix 15) entity.key
        else if strEndsWith tSuffix "/_action/feedback" then
          n.update_action_srv_feedback_writer (strDropRight tSuffix 17)
            (dds_action_topic_to_ros entity.type_name) entity.key
        else
          n.update_topic_pub tSuffix (dds_pubsub_topic_to_ros entity.type_name) entity.key
      else if tHead = "rq/" then
        if strEndsWith tSuffix "/_action/send_goalRequest" then
          n.update_action_cli_send_req_writer (strDropRight tSuffix 25)
            (dds_action_topic_to_ros entity.type_name) entity.key
        else if strEndsWith tSuffix "/_action/cancel_goalRequest" then
          n.update_action_cli_cancel_req_writer (strDropRight tSuffix 27) entity.key
        else if strEndsWith tSuffix "/_action/get_resultRequest" then
          n.update_action_cli_result_req_writer (strDropRight tSuffix 26)
            (dds_action_topic_to_ros entity.type_name) entity.key
        else if strEndsWith tSuffix "Request" then
          n.update_service_cli_req_writer (strDropRight tSuffix 7)
            (dds_service_topic_to_ros entity.type_name) entity.key
        else (n, none)
      else if tHead = "rr/" then
        if strEndsWith tSuffix "/_action/send_goalReply" then
          n.update_action_srv_send_rep_writer (strDropRight tSuffix 23)
            (dds_action_topic_to_ros entity.type_name) entity.key
        else if strEndsWith tSuffix "/_action/cancel_goalReply" then
          n.update_action_srv_cancel_rep_writer (strDropRight tSuffix 25) entity.key
        else if strEndsWith tSuffix "/_action/get_resultReply" then
          n.update_action_srv_result_rep_writer (strDropRight tSuffix 24)
            (dds_action_topic_to_ros entity.type_name) entity.key
        else if strEndsWith tSuffix "Reply" then
          n.update_service_srv_rep_writer (strDropRight tSuffix 5)
            (dds_service_topic_to_ros entity.type_name) entity.key
        else (n, none)
      else (n, none))
  | _, _ => none

/-- node_info.rs: `NodeInfo::remove_all_entities` (drains every interface map,
emitting one `Undiscovered*` event per drained entry, and clears both pending
queues). -/
def NodeInfo.remove_all_entities (n : NodeInfo) : NodeInfo × List ROS2DiscoveryEvent :=
  ({ n with
      topic_pub := [], topic_sub := [], service_srv := [], service_cli := [],
      action_srv := [], action_cli := [],
      undiscovered_reader := [], undiscovered_writer := [] },
   n.topic_pub.map (fun p => .UndiscoveredTopicPub n.fullname p.2)
     ++ n.topic_sub.map (fun p => .UndiscoveredTopicSub n.fullname p.2)
     ++ n.service_srv.map (fun p => .UndiscoveredServiceSrv n.fullname p.2)
     ++ n.service_cli.map (fun p => .UndiscoveredServiceCli n.fullname p.2)
     ++ n.action_srv.map (fun p => .UndiscoveredActionSrv n.fullname p.2)
     ++ n.action_cli.map (fun p => .UndiscoveredActionCli n.fullname p.2))

/-- node_info.rs: `NodeInfo::remove_reader` (first interface whose stored
reader Gid matches is removed and returned as an `Undiscovered*` event;
otherwise the pending reader queue is purged of the Gid). -/
def NodeInfo.remove_reader (n : NodeInfo) (reader : Gid) :
    NodeInfo × Option ROS2DiscoveryEvent :=
  match n.topic_sub.find? (fun p => p.2.reader == reader) with
  | some e =>
      ({ n with topic_sub := aerase n.topic_sub e.1 },
       some (.UndiscoveredTopicSub n.fullname e.2))
  | none =>
  match n.service_srv.find? (fun p => p.2.entities.req_reader == reader) with
  | some e =>
      ({ n with service_srv := aerase n.service_srv e.1 },
       some (.UndiscoveredServiceSrv n.fullname e.2))
  | none =>
  match n.service_cli.find? (fun p => p.2.entities.rep_reader == reader) with
  | some e =>
      ({ n with service_cli := aerase n.service_cli e.1 },
       some (.UndiscoveredServiceCli n.fullname e.2))
  | none =>
  match n.action_srv.find? (fun p =>
      p.2.entities.send_goal.req_reader == reader
        || p.2.entities.cancel_goal.req_reader == reader
        || p.2.entities.get_result.req_reader == reader) with
  | some e =>
      ({ n with action_srv := aerase n.action_srv e.1 },
       some (.UndiscoveredActionSrv n.fullname e.2))
  | none =>
  match n.action_cli.find? (fun p =>
      p.2.entities.send_goal.rep_reader == reader
        || p.2.entities.cancel_goal.rep_reader == reader
        || p.2.entities.get_result.rep_reader == reader
        || p.2.entities.status_reader == reader
        || p.2.entities.feedback_reader == reader) with
  | some e =>
      ({ n with action_cli := aerase n.action_cli e.1 },
       some (.UndiscoveredActionCli n.fullname e.2))
  | none =>
      ({ n with undiscovered_reader := n.undiscovered_reader.filter (fun g => !(g == reader)) },
       none)

/-- node_info.rs: `NodeInfo::remove_writer`. -/
def NodeInfo.remove_writer (n : NodeInfo) (writer : Gid) :
    NodeInfo × Option ROS2DiscoveryEvent :=
  match n.topic_pub.find? (fun p => p.2.writer == writer) with
  | some e =>
      ({ n with topic_pub := aerase n.topic_pub e.1 },
       some (.UndiscoveredTopicPub n.fullname e.2))
  | none =>
  match n.service_srv.find? (fun p => p.2.entities.rep_writer == writer) with
  | some e =>
      ({ n with service_srv := aerase n.service_srv e.1 },
       some (.UndiscoveredServiceSrv n.fullname e.2))
  | none =>
  match n.service_cli.find? (fun p => p.2.entities.req_writer == writer) with
  | some e =>
      ({ n with service_cli := aerase n.service_cli e.1 },
       some (.UndiscoveredServiceCli n.fullname e.2))
  | none =>
  match n.action_srv.find? (fun p =>
      p.2.entities.send_goal.rep_writer == writer
        || p.2.entities.cancel_goal.rep_writer == writer
        || p.2.entities.get_result.rep_writer == writer
        || p.2.entities.status_writer == writer
        || p.2.entities.feedback_writer == writer) with
  | some e =>
      ({ n with action_srv := aerase n.action_srv e.1 },
       some (.UndiscoveredActionSrv n.fullname e.2))
  | none =>
  match n.action_cli.find? (fun p =>
      p.2.entities.send_goal.req_writer == writer
        || p.2.entities.cancel_goal.req_writer == writer
        || p.2.entities.get_result.req_writer == writer) with
  | some e =>
      ({ n with action_cli := aerase n.action_cli e.1 },
       some (.UndiscoveredActionCli n.fullname e.2))
  | none =>
      ({ n with undiscovered_writer := n.undiscovered_writer.filter (fun g => !(g == writer)) },
       none)

/-- Decimal digits of a natural number, most significant first (fuel-based
structural recursion; any fuel above the number suffices). -/
def natDecimalCharsAux : Nat → Nat → List Char
  | 0, _ => []
  | fuel + 1, n =>
    if n < 10 then [Char.ofNat (48 + n)]
    else natDecimalCharsAux fuel (n / 10) ++ [Char.ofNat (48 + n % 10)]

/-- Decimal digits of a natural number, most significant first: the output of
Rust's `Display` for unsigned integers. -/
def natDecimalChars (n : Nat) : List Char := natDecimalCharsAux (n + 1) n

/-- Decimal rendering of a signed integer: the output of Rust's `Display` for
signed integers. -/
def intDecimalChars (i : Int) : List Char :=
  if i < 0 then Char.ofNat 45 :: natDecimalChars i.natAbs
  else natDecimalChars i.toNat

def isDigitChar (c : Char) : Bool := 48 ≤ c.toNat && c.toNat ≤ 57

/-- Digit-string interpretation shared by the embeddings of Rust's unsigned
`from_str` parsers (empty or non-digit input fails). -/
def decimalCharsToNat? (l : List Char) : Option Nat :=
  if l ≠ [] ∧ l.all isDigitChar then
    some (l.foldl (fun acc c => acc * 10 + (c.toNat - 48)) 0)
  else none

/-- Rust `str::parse::<u32>` on digit strings (range-checked). -/
def parseU32chars (l : List Char) : Option Nat :=
  (decimalCharsToNat? l).bind (fun m => if m < 2 ^ 32 then some m else none)

/-- Rust `str::parse::<i32>` on decimal strings (sign plus range check). -/
def parseI32chars (l : List Char) : Option Int :=
  match l with
  | [] => none
  | c :: rest =>
    if c = Char.ofNat 45 then
      (decimalCharsToNat? rest).bind
        (fun m => if (m : Int) ≤ 2 ^ 31 then some (-(m : Int)) else none)
    else
      (decimalCharsToNat? l).bind
        (fun m => if (m : Int) < 2 ^ 31 then some ((m : Int)) else none)

/-- Rust `str::split(sep)` for a one-character separator. -/
def splitOnChar (sep : Char) : List Char → List (List Char)
  | [] => [[]]
  | c :: rest =>
    if c = sep then [] :: splitOnChar sep rest
    else
      match splitOnChar sep rest with
      | [] => [[c]]
      | seg :: segs => (c :: seg) :: segs

/-- Rust `str::split_once(sep)` for a one-character separator. -/
def splitOnceChar (sep : Char) : List Char → Option (List Char × List Char)
  | [] => none
  | c :: rest =>
    if c = sep then some ([], rest)
    else (splitOnceChar sep rest).map (fun p => (c :: p.1, p.2))

/-- Modelled from the spec: `ros_discovery::NodeEntitiesInfo` (module not
provided): namespace, node name and the Gids of the readers and writers the
node claims. -/
structure NodeEntitiesInfo where
  node_namespace : String
  node_name : String
  reader_gid_seq : List Gid
  writer_gid_seq : List Gid
  deriving DecidableEq, Repr

/-- Modelled from the spec: `ros_discovery::ParticipantEntitiesInfo` (module
not provided): the participant Gid and its node map; each arrival fully
replaces the previous manifest for that participant. -/
structure ParticipantEntitiesInfo where
  gid : Gid
  node_entities_info_seq : List (String × NodeEntitiesInfo)
  deriving DecidableEq, Repr

/-- discovered_entities.rs: `EntityRef`. -/
inductive EntityRef where
  | Participant (gid : Gid)
  | Writer (gid : Gid)
  | Reader (gid : Gid)
  | Node (gid : Gid) (name : String)
  deriving DecidableEq, Repr

/-- Rendering of a Gid inside an admin key expression (the source renders the
16 bytes as hex; any injective rendering without the separator characters
works for the embedding). -/
def gidChars (g : Gid) : List Char := natDecimalChars g

/-- discovered_entities.rs: admin key `dds/{pgid}`. -/
def adminKeyParticipant (pgid : Gid) : String :=
  String.mk ("dds/".data ++ gidChars pgid)

/-- discovered_entities.rs: admin key `dds/{pgid}/writer/{wgid}/{topic}`. -/
def adminKeyWriter (w : DdsEntity) : String :=
  String.mk ("dds/".data ++ gidChars w.participant_key ++ "/writer/".data
    ++ gidChars w.key ++ [Char.ofNat 47] ++ w.topic_name.data)

/-- discovered_entities.rs: admin key `dds/{pgid}/reader/{rgid}/{topic}`. -/
def adminKeyReader (r : DdsEntity) : String :=
  String.mk ("dds/".data ++ gidChars r.participant_key ++ "/reader/".data
    ++ gidChars r.key ++ [Char.ofNat 47] ++ r.topic_name.data)

/-- discovered_entities.rs: admin key `node/{pgid}/{fullname[1..]}`. -/
def adminKeyNode (pgid : Gid) (fullname : String) : String :=
  String.mk ("node/".data ++ gidChars pgid ++ [Char.ofNat 47] ++ fullname.data.drop 1)

/-- discovered_entities.rs: `DiscoveredEntities` (`DdsParticipant` retains
only its key here; its QoS is opaque and only used for admin serialization). -/
structure DiscoveredEntities where
  participants : List Gid := []
  writers : List (Gid × DdsEntity) := []
  readers : List (Gid × DdsEntity) := []
  ros_participant_info : List (Gid × ParticipantEntitiesInfo) := []
  nodes_info : List (Gid × List (String × NodeInfo)) := []
  admin_space : List (String × EntityRef) := []
  deriving DecidableEq, Repr

/-- discovered_entities.rs: `DiscoveredEntities::add_writer` (records the
endpoint in the writers table and the admin space; nothing else). -/
def DiscoveredEntities.add_writer (s : DiscoveredEntities) (writer : DdsEntity) :
    DiscoveredEntities :=
  { s with
    admin_space := ainsert s.admin_space (adminKeyWriter writer) (EntityRef.Writer writer.key),
    writers := ainsert s.writers writer.key writer }

/-- discovered_entities.rs: `DiscoveredEntities::add_reader`. -/
def DiscoveredEntities.add_reader (s : DiscoveredEntities) (reader : DdsEntity) :
    DiscoveredEntities :=
  { s with
    admin_space := ainsert s.admin_space (adminKeyReader reader) (EntityRef.Reader reader.key),
    readers := ainsert s.readers reader.key reader }

/-- discovered_entities.rs, `update_node_info`, reader arm: dispatch of one
discovered reader endpoint claimed by a manifest.  The topic name is cut with
`split_at(3)` (none models its panic on shorter names) and the RAW
`entity.type_name` is passed to the updates, with no ROS type conversion;
the type argument the source passes to the type-less cancel/status updates
has no counterpart in their node_info.rs signatures and is dropped. -/
def manifestReaderStep (node : NodeInfo) (entity : DdsEntity) (rgid : Gid) :
    Option (NodeInfo × Option ROS2DiscoveryEvent) :=
  match strSliceTo entity.topic_name 3, strSliceFrom entity.topic_name 3 with
  | some tHead, some tSuffix =>
    some (
      if tHead = "rt/" then
        if strEndsWith tSuffix "/_action/status" then
          node.update_action_cli_status_reader (strDropRight tSuffix 15) rgid
        else if strEndsWith tSuffix "/_action/feedback" then
          node.update_action_cli_feedback_reader (strDropRight tSuffix 17) entity.type_name rgid
        else
          node.update_topic_sub tSuffix entity.type_name rgid
      else if tHead = "rq/" then
        if strEndsWith tSuffix "/_action/send_goalRequest" then
          node.update_action_srv_send_req_reader (strDropRight tSuffix 25) entity.type_name rgid
        else if strEndsWith tSuffix "/_action/cancel_goalRequest" then
          node.update_action_srv_cancel_req_reader (strDropRight tSuffix 27) rgid
        else if strEndsWith tSuffix "/_action/get_resultRequest" then
          node.update_action_srv_result_req_reader (strDropRight tSuffix 26) entity.type_name rgid
        else if strEndsWith tSuffix "Request" then
          node.update_service_srv_req_reader (strDropRight tSuffix 7) entity.type_name rgid
        else (node, none)
      else if tHead = "rr/" then
        if strEndsWith tSuffix "/_action/send_goalReply" then
          node.update_action_cli_send_rep_reader (strDropRight tSuffix 23) entity.type_name rgid
        else if strEndsWith tSuffix "/_action/cancel_goalReply" then
          node.update_action_cli_cancel_rep_reader (strDropRight tSuffix 25) rgid
        else if strEndsWith tSuffix "/_action/get_resultReply" then
          node.update_action_cli_result_rep_reader (strDropRight tSuffix 24) entity.type_name rgid
        else if strEndsWith tSuffix "Reply" then
          node.update_service_cli_rep_reader (strDropRight tSuffix 5) entity.type_name rgid
        else (node, none)
      else (node, none))
  | _, _ => none

/-- discovered_entities.rs, `update_node_info`, writer arm (same conventions
as `manifestReaderStep`). -/
def manifestWriterStep (node : NodeInfo) (entity : DdsEntity) (wgid : Gid) :
    Option (NodeInfo × Option ROS2DiscoveryEvent) :=
  match strSliceTo entity.topic_name 3, strSliceFrom entity.topic_name 3 with
  | some tHead, some tSuffix =>
    some (
      if tHead = "rt/" then
        if strEndsWith tSuffix "/_action/status" then
          node.update_action_srv_status_writer (strDropRight tSuffix 15) wgid
        else if strEndsWith tSuffix "/_action/feedback" then
          node.update_action_srv_feedback_writer (strDropRight tSuffix 17) entity.type_name wgid
        else
          node.update_topic_pub tSuffix entity.type_name wgid
      else if tHead = "rq/" then
        if strEndsWith tSuffix "/_action/send_goalRequest" then
          node.update_action_cli_send_req_writer (strDropRight tSuffix 25) entity.type_name wgid
        else if strEndsWith tSuffix "/_action/cancel_goalRequest" then
          node.update_action_cli_cancel_req_writer (strDropRight tSuffix 27) wgid
        else if strEndsWith tSuffix "/_action/get_resultRequest" then
          node.update_action_cli_result_req_writer (strDropRight tSuffix 26) entity.type_name wgid
        else if strEndsWith tSuffix "Request" then
          node.update_service_cli_req_writer (strDropRight tSuffix 7) entity.type_name wgid
        else (node, none)
      else if tHead = "rr/" then
        if strEndsWith tSuffix "/_action/send_goalReply" then
          node.update_action_srv_send_rep_writer (strDropRight tSuffix 23) entity.type_name wgid
        else if strEndsWith tSuffix "/_action/cancel_goalReply" then
          node.update_action_srv_cancel_rep_writer (strDropRight tSuffix 25) wgid
        else if strEndsWith tSuffix "/_action/get_resultReply" then
          node.update_action_srv_result_rep_writer (strDropRight tSuffix 24) entity.type_name wgid
        else if strEndsWith tSuffix "Reply" then
          node.update_service_srv_rep_writer (strDropRight tSuffix 5) entity.type_name wgid
        else (node, none)
      else (node, none))
  | _, _ => none

/-- discovered_entities.rs, `update_node_info`: loop over the manifest's
reader Gids.  Known endpoints are dispatched (their events are computed and
logged by the source; we collect them), unknown Gids are pushed on the
node's pending reader queue. -/
def processReaderGids (readers : List (Gid × DdsEntity)) :
    NodeInfo → List ROS2DiscoveryEvent → List Gid →
    Option (NodeInfo × List ROS2DiscoveryEvent)
  | node, evs, [] => some (node, evs)
  | node, evs, rgid :: rest =>
    match alookup readers rgid with
    | some entity =>
      match manifestReaderStep node entity rgid with
      | none => none
      | some (node', ev) => processReaderGids readers node' (evs ++ ev.toList) rest
    | none =>
      processReaderGids readers
        { node with undiscovered_reader := node.undiscovered_reader ++ [rgid] } evs rest

/-- discovered_entities.rs, `update_node_info`: loop over the manifest's
writer Gids. -/
def processWriterGids (writers : List (Gid × DdsEntity)) :
    NodeInfo → List ROS2DiscoveryEvent → List Gid →
    Option (NodeInfo × List ROS2DiscoveryEvent)
  | node, evs, [] => some (node, evs)
  | node, evs, wgid :: rest =>
    match alookup writers wgid with
    | some entity =>
      match manifestWriterStep node entity wgid with
      | none => none
      | some (node', ev) => processWriterGids writers node' (evs ++ ev.toList) rest
    | none =>
      processWriterGids writers
        { node with undiscovered_writer := node.undiscovered_writer ++ [wgid] } evs rest

/-- discovered_entities.rs: `DiscoveredEntities::update_node_info`. -/
def update_node_info (node : NodeInfo) (ni : NodeEntitiesInfo)
    (readers writers : List (Gid × DdsEntity)) :
    Option (NodeInfo × List ROS2DiscoveryEvent) :=
  match processReaderGids readers node [] ni.reader_gid_seq with
  | none => none
  | some (node1, evs1) =>
    match processWriterGids writers node1 evs1 ni.writer_gid_seq with
    | none => none
    | some (node2, evs2) => some (node2, evs2)

/-- Membership of a node name in a manifest (`node_entities_info_seq.contains_key`). -/
def manifestHasNode (info : ParticipantEntitiesInfo) (name : String) : Bool :=
  info.node_entities_info_seq.any (fun q => q.1 == name)

/-- discovered_entities.rs, `update_participant_info`: the update-or-add loop
over the nodes of the manifest: look up or create the NodeInfo, run
`update_node_info` on it, insert the node admin key. -/
def processManifestNodes (readers writers : List (Gid × DdsEntity)) (pgid : Gid) :
    List (String × NodeInfo) → List (String × EntityRef) → List ROS2DiscoveryEvent →
    List (String × NodeEntitiesInfo) →
    Option (List (String × NodeInfo) × List (String × EntityRef) × List ROS2DiscoveryEvent)
  | nodesMap, admin, evs, [] => some (nodesMap, admin, evs)
  | nodesMap, admin, evs, (name, ni) :: rest =>
    let node :=
      match alookup nodesMap name with
      | some node => node
      | none => NodeInfo.create ni.node_namespace ni.node_name pgid
    match update_node_info node ni readers writers with
    | none => none
    | some (node', evs') =>
      processManifestNodes readers writers pgid
        (ainsert nodesMap name node')
        (ainsert admin (adminKeyNode pgid name) (EntityRef.Node pgid name))
        (evs ++ evs') rest

/-- discovered_entities.rs: `DiscoveredEntities::update_participant_info`.
The source returns unit; the returned event list here collects exactly the
events the inner `update_node_info` dispatches computed (the source logs and
then discards them) — the node-removal phase computes none. -/
def DiscoveredEntities.update_participant_info (s : DiscoveredEntities)
    (info : ParticipantEntitiesInfo) :
    Option (DiscoveredEntities × List ROS2DiscoveryEvent) :=
  let nodesMap := (alookup s.nodes_info info.gid).getD []
  let removed := nodesMap.filter (fun p => !(manifestHasNode info p.1))
  let kept := nodesMap.filter (fun p => manifestHasNode info p.1)
  let admin1 := removed.foldl (fun a p => aerase a (adminKeyNode info.gid p.1)) s.admin_space
  match processManifestNodes s.readers s.writers info.gid kept admin1 []
      info.node_entities_info_seq with
  | none => none
  | some (nodesMap', admin2, evs) =>
    some ({ s with
            nodes_info := ainsert s.nodes_info info.gid nodesMap',
            admin_space := admin2,
            ros_participant_info := ainsert s.ros_participant_info info.gid info },
          evs)

/-- config.rs: `ROS2InterfacesRegex`; each optional anchored regex is
modelled as a boolean matching function on interface names. -/
structure ROS2InterfacesRegex where
  publishers : Option (String → Bool) := none
  subscribers : Option (String → Bool) := none
  service_servers : Option (String → Bool) := none
  service_clients : Option (String → Bool) := none
  action_servers : Option (String → Bool) := none
  action_clients : Option (String → Bool) := none

/-- config.rs: `Allowance`. -/
inductive Allowance where
  | Allow (r : ROS2InterfacesRegex)
  | Deny (r : ROS2InterfacesRegex)

/-- config.rs: `Allowance::is_publisher_allowed`. -/
def Allowance.is_publisher_allowed (a : Allowance) (name : String) : Bool :=
  match a with
  | .Allow r =>
    match r.publishers with
    | some re => re name
    | none => false
  | .Deny r =>
    match r.publishers with
    | some re => !(re name)
    | none => true

/-- config.rs: `Allowance::is_subscriber_allowed`. -/
def Allowance.is_subscriber_allowed (a : Allowance) (name : String) : Bool :=
  match a with
  | .Allow r =>
    match r.subscribers with
    | some re => re name
    | none => false
  | .Deny r =>
    match r.subscribers with
    | some re => !(re name)
    | none => true

/-- config.rs: `Config`, restricted to the fields the route manager reads. -/
structure Config where
  reliable_routes_blocking : Bool := true
  allowance : Option Allowance := none

/-- routes_mgr.rs: `RouteRef`. -/
inductive RouteRef where
  | PublisherRoute (name : String)
  | SubscriberRoute (name : String)
  deriving DecidableEq, Repr

/-- The state of one route that the reference-counting logic observes: its
interface name and type and the two reference sets, `local_nodes` (node full
names, routes_mgr.rs / route_subscriber.rs) and `remote_routes` (admin key
expressions).  The native and overlay endpoint handles owned by a route are
external resources and are not part of the state. -/
structure RouteEntry where
  name : String
  typ : String
  local_nodes : List String
  remote_routes : List String
  deriving DecidableEq, Repr

/-- `HashSet::insert` on a set modelled as a duplicate-free list. -/
def slinsert (l : List String) (x : String) : List String :=
  if l.contains x then l else l ++ [x]

/-- route_subscriber.rs: `add_local_node` (same body as
`RoutePublisher::add_local_node` used by routes_mgr.rs). -/
def RouteEntry.add_local_node (r : RouteEntry) (node : String) : RouteEntry :=
  { r with local_nodes := slinsert r.local_nodes node }

/-- route_subscriber.rs: `is_serving_local_node`. -/
def RouteEntry.is_serving_local_node (r : RouteEntry) : Bool := !r.local_nodes.isEmpty

/-- route_subscriber.rs: `is_serving_remote_route`. -/
def RouteEntry.is_serving_remote_route (r : RouteEntry) : Bool := !r.remote_routes.isEmpty

/-- route_subscriber.rs: `is_unused`. -/
def RouteEntry.is_unused (r : RouteEntry) : Bool :=
  !r.is_serving_local_node && !r.is_serving_remote_route

/-- routes_mgr.rs: the mutable state of `RoutesMgr` (the config, session and
registry handles it also holds are inputs, not state). -/
structure RoutesMgrState where
  routes_publishers : List (String × RouteEntry) := []
  routes_subscribers : List (String × RouteEntry) := []
  admin_space : List (String × RouteRef) := []
  deriving DecidableEq, Repr

/-- routes_mgr.rs: `RoutesMgr::update_route_publisher`.  If a route for the
interface name exists, the node is added to its `local_nodes`; otherwise the
DDS writer is looked up in the registry (error if absent) and a new route is
created and inserted in the table and the admin space.  The congestion
control, QoS adaptation and zenoh declarations it also performs configure the
external endpoints only.  Note: the function never consults
`config.allowance`. -/
def update_route_publisher (cfg : Config) (writers : List (Gid × DdsEntity))
    (s : RoutesMgrState) (node : String) (iface : TopicPub) :
    Except String RoutesMgrState :=
  match alookup s.routes_publishers iface.name with
  | some route =>
    .ok { s with
          routes_publishers :=
            ainsert s.routes_publishers iface.name (route.add_local_node node) }
  | none =>
    match alookup writers iface.writer with
    | none => .error "Failed to get DDS info for Writer. Already deleted ?"
    | some _entity =>
      let route : RouteEntry :=
        ({ name := iface.name, typ := iface.typ, local_nodes := [],
           remote_routes := [] } : RouteEntry).add_local_node node
      .ok { s with
            admin_space :=
              ainsert s.admin_space ("route/topic/pub/" ++ iface.name)
                (RouteRef.PublisherRoute iface.name),
            routes_publishers := ainsert s.routes_publishers iface.name route }

/-- routes_mgr.rs: `RoutesMgr::update_route_subscriber`. -/
def update_route_subscriber (cfg : Config) (readers : List (Gid × DdsEntity))
    (s : RoutesMgrState) (node : String) (iface : TopicSub) :
    Except String RoutesMgrState :=
  match alookup s.routes_subscribers iface.name with
  | some route =>
    .ok { s with
          routes_subscribers :=
            ainsert s.routes_subscribers iface.name (route.add_local_node node) }
  | none =>
    match alookup readers iface.reader with
    | none => .error "Failed to get DDS info for Reader. Already deleted ?"
    | some _entity =>
      let route : RouteEntry :=
        ({ name := iface.name, typ := iface.typ, local_nodes := [],
           remote_routes := [] } : RouteEntry).add_local_node node
      .ok { s with
            admin_space :=
              ainsert s.admin_space ("route/topic/sub/" ++ iface.name)
                (RouteRef.SubscriberRoute iface.name),
            routes_subscribers := ainsert s.routes_subscribers iface.name route }

/-- routes_mgr.rs: `RoutesMgr::update`.  `DiscoveredTopicPub` and
`DiscoveredTopicSub` create or extend a route; every other event — all six
`Undiscovered*` variants and the four service/action `Discovered*` variants —
only logs a TODO message and leaves the state untouched. -/
def RoutesMgr.update (cfg : Config) (writers readers : List (Gid × DdsEntity))
    (s : RoutesMgrState) (event : ROS2DiscoveryEvent) : Except String RoutesMgrState :=
  match event with
  | .DiscoveredTopicPub node iface => update_route_publisher cfg writers s node iface
  | .UndiscoveredTopicPub _ _ => .ok s
  | .DiscoveredTopicSub node iface => update_route_subscriber cfg readers s node iface
  | .UndiscoveredTopicSub _ _ => .ok s
  | .DiscoveredServiceSrv _ _ => .ok s
  | .UndiscoveredServiceSrv _ _ => .ok s
  | .DiscoveredServiceCli _ _ => .ok s
  | .UndiscoveredServiceCli _ _ => .ok s
  | .DiscoveredActionSrv _ _ => .ok s
  | .UndiscoveredActionSrv _ _ => .ok s
  | .DiscoveredActionCli _ _ => .ok s
  | .UndiscoveredActionCli _ _ => .ok s

/-- qos_helpers.rs: `qos_to_key_expr` — the QoS digest string
`[K]:<rel>:<dur>:<hist>,<depth>` (leading `K` iff the topic is keyed, each
element empty when the corresponding QoS field is unset, enum values written
as their numeric codes). -/
def qos_to_key_expr (keyless : Bool) (qos : Qos) : String :=
  String.mk (
    (if keyless then [] else ['K'])
    ++ [':']
    ++ (match qos.reliability with
        | some r => natDecimalChars r.kind.toCode
        | none => [])
    ++ [':']
    ++ (match qos.durability with
        | some d => natDecimalChars d.kind.toCode
        | none => [])
    ++ [':']
    ++ (match qos.history with
        | some h => natDecimalChars h.kind.toCode ++ [','] ++ intDecimalChars h.depth
        | none => []))

/-- qos_helpers.rs: `key_expr_to_qos` — the digest parser: exactly four
colon-separated elements; element 1 parses as a reliability kind (the max
blocking time is restored as the 100 ms default), element 2 as a durability
kind, element 3 as `kind,depth`. -/
def key_expr_to_qos (ke : String) : Except String (Bool × Qos) :=
  match splitOnChar ':' ke.data with
  | [e0, e1, e2, e3] =>
    let keyless := e0.isEmpty
    let qr : Except String (Option Reliability) :=
      if e1.isEmpty then .ok none
      else
        match parseU32chars e1 with
        | some i =>
          .ok (some { kind := ReliabilityKind.fromCode i,
                      max_blocking_time := DDS_100MS_DURATION })
        | none => .error "unexpected QoS expression - failed to parse Reliability in 2nd element"
    match qr with
    | .error e => .error e
    | .ok rel =>
      let qd : Except String (Option Durability) :=
        if e2.isEmpty then .ok none
        else
          match parseU32chars e2 with
          | some i => .ok (some { kind := DurabilityKind.fromCode i })
          | none => .error "unexpected QoS expression - failed to parse Durability in 3d element"
      match qd with
      | .error e => .error e
      | .ok dur =>
        let qh : Except String (Option History) :=
          if e3.isEmpty then .ok none
          else
            match splitOnceChar ',' e3 with
            | some (s1, s2) =>
              match parseU32chars s1, parseI32chars s2 with
              | some k, some depth => .ok (some { kind := HistoryKind.fromCode k, depth := depth })
              | _, _ => .error "unexpected QoS expression - failed to parse History in 4th element"
            | none => .error "unexpected QoS expression - failed to parse History in 4th element"
        match qh with
        | .error e => .error e
        | .ok hist =>
          .ok (keyless, { Qos.default with reliability := rel, durability := dur, history := hist })
  | _ => .error "unexpected QoS expression - 4 elements between : were expected"

/-- The value `usize::MAX` (64-bit target). -/
def usizeMax : Nat := 2 ^ 64 - 1

/-- Rust cast `i as usize` for an i32 value `i` (two's-complement into the
64-bit unsigned range). -/
def i32AsUsize (i : Int) : Nat := (i % (2 ^ 64 : Int)).toNat

/-- Rust `i32::checked_mul`. -/
def i32CheckedMul (a b : Int) : Option Int :=
  let p := a * b
  if -(2 ^ 31) ≤ p ∧ p < 2 ^ 31 then some p else none

/-- route_publisher.rs, `RoutePublisher::create`, lines 115-141: the overlay
side of a publisher route.  When the (adapted) reader QoS is transient-local
the route declares a publication cache whose depth is returned as `some h`;
otherwise a plain publisher is declared (`none`). -/
def routePublisherCacheHistory (keyless : Bool) (reader_qos : Qos) : Option Nat :=
  if is_transient_local reader_qos then
    let history_qos := get_history_or_default reader_qos
    let durability_service_qos := get_durability_service_or_default reader_qos
    some (
      match history_qos.kind, history_qos.depth with
      | HistoryKind.KEEP_LAST, n =>
        if keyless then
          i32AsUsize n
        else if durability_service_qos.max_instances = DDS_LENGTH_UNLIMITED then
          usizeMax
        else if durability_service_qos.max_instances > 0 then
          match i32CheckedMul n durability_service_qos.max_instances with
          | some m => i32AsUsize m
          | none => usizeMax
        else
          i32AsUsize n
      | HistoryKind.KEEP_ALL, _ => usizeMax)
  else none

/-- A reader Gid is referenced by some interface of the node — the disjunction
of the five match predicates of `NodeInfo::remove_reader`. -/
def NodeInfo.usesReader (n : NodeInfo) (g : Gid) : Bool :=
  n.topic_sub.any (fun p => p.2.reader == g)
    || n.service_srv.any (fun p => p.2.entities.req_reader == g)
    || n.service_cli.any (fun p => p.2.entities.rep_reader == g)
    || n.action_srv.any (fun p =>
        p.2.entities.send_goal.req_reader == g
          || p.2.entities.cancel_goal.req_reader == g
          || p.2.entities.get_result.req_reader == g)
    || n.action_cli.any (fun p =>
        p.2.entities.send_goal.rep_reader == g
          || p.2.entities.cancel_goal.rep_reader == g
          || p.2.entities.get_result.rep_reader == g
          || p.2.entities.status_reader == g
          || p.2.entities.feedback_reader == g)

/-- A writer Gid is referenced by some interface of the node — the disjunction
of the five match predicates of `NodeInfo::remove_writer`. -/
def NodeInfo.usesWriter (n : NodeInfo) (g : Gid) : Bool :=
  n.topic_pub.any (fun p => p.2.writer == g)
    || n.service_srv.any (fun p => p.2.entities.rep_writer == g)
    || n.service_cli.any (fun p => p.2.entities.req_writer == g)
    || n.action_srv.any (fun p =>
        p.2.entities.send_goal.rep_writer == g
          || p.2.entities.cancel_goal.rep_writer == g
          || p.2.entities.get_result.rep_writer == g
          || p.2.entities.status_writer == g
          || p.2.entities.feedback_writer == g)
    || n.action_cli.any (fun p =>
        p.2.entities.send_goal.req_writer == g
          || p.2.entities.cancel_goal.req_writer == g
          || p.2.entities.get_result.req_writer == g)

/-- The number of interfaces currently held in the six maps of a node. -/
def NodeInfo.interfaceCount (n : NodeInfo) : Nat :=
  n.topic_pub.length + n.topic_sub.length + n.service_srv.length
    + n.service_cli.length + n.action_srv.length + n.action_cli.length

/-- Holds when an optional discovery event, if present, is a
`DiscoveredServiceSrv` carrying a complete service. -/
def serviceSrvEventComplete : Option ROS2DiscoveryEvent → Bool
  | none => true
  | some (.DiscoveredServiceSrv _ v) => v.is_complete
  | some _ => false

/-- The publication-cache depth exactly as claim C9 words it: infinity for
KEEP_ALL; for KEEP_LAST(n): n when keyless, else infinity when max_instances
is unlimited, n * max_instances saturating to infinity on overflow when
max_instances > 0, and n otherwise. -/
def claimedCacheDepth (keyless : Bool) (kind : HistoryKind) (n : Int)
    (max_instances : Int) : Nat :=
  match kind with
  | .KEEP_ALL => usizeMax
  | .KEEP_LAST =>
    if keyless then n.toNat
    else if max_instances = DDS_LENGTH_UNLIMITED then usizeMax
    else if max_instances > 0 then
      if n * max_instances < 2 ^ 31 then (n * max_instances).toNat else usizeMax
    else n.toNat

def c1srv : ServiceSrv :=
  { name := "s", typ := "T",
    entities := { req_reader := 5, rep_writer := Gid.NOT_DISCOVERED } }

def c1node : NodeInfo :=
  { fullname := "/n", node_name_idx := 1, participant := 1,
    topic_pub := [], topic_sub := [],
    service_srv := [("s", c1srv)],
    service_cli := [], action_srv := [], action_cli := [],
    undiscovered_reader := [], undiscovered_writer := [] }

def w1x : DdsEntity :=
  { key := 7, participant_key := 1, topic_name := "rt/foo",
    type_name := "pkg::dds_::Foo_", keyless := true, qos := {} }

def m1x : ParticipantEntitiesInfo :=
  { gid := 1, node_entities_info_seq :=
      [("/n", { node_namespace := "/", node_name := "n",
                reader_gid_seq := [], writer_gid_seq := [7] })] }

def c2pre : DiscoveredEntities :=
  (((DiscoveredEntities.add_writer {} w1x).update_participant_info m1x).getD ({}, [])).1

def c2info : ParticipantEntitiesInfo := { gid := 1, node_entities_info_seq := [] }

def c2node : NodeInfo :=
  (alookup ((alookup c2pre.nodes_info 1).getD []) "/n").getD (NodeInfo.create "/" "x" 0)

def c2post : DiscoveredEntities × List ROS2DiscoveryEvent :=
  (c2pre.update_participant_info c2info).getD ({}, [])

deriving instance DecidableEq for Except

def c3run : DiscoveredEntities × List ROS2DiscoveryEvent :=
  (({} : DiscoveredEntities).update_participant_info m1x).getD ({}, [])

def c4iface : TopicPub := { name := "foo", typ := "t", writer := 7 }

def c4s1 : RoutesMgrState :=
  (RoutesMgr.update {} [(7, w1x)] [] {} (.DiscoveredTopicPub "/a" c4iface)).toOption.getD {}

def w2x : DdsEntity :=
  { key := 8, participant_key := 1, topic_name := "rt/bar/baz",
    type_name := "pkg::dds_::Baz_", keyless := true, qos := {} }

def w3x : DdsEntity :=
  { key := 9, participant_key := 1, topic_name := "rt/foo/bar",
    type_name := "pkg::dds_::Bar_", keyless := true, qos := {} }

def c5bad : TopicPub := { name := "bar/baz", typ := "pkg/Baz", writer := 8 }

def c5good : TopicPub := { name := "foo/bar", typ := "pkg/Bar", writer := 9 }

/-- The allow policy of claim C5: `allow.publishers = "^foo/.*$"`, the
anchored regex modelled as its matching function (match iff the name starts
with `foo/`). -/
def allowFoo : Allowance :=
  .Allow { publishers := some (fun s => List.isPrefixOf "foo/".data s.data) }

def allowFooCfg : Config := { allowance := some allowFoo }

def c8q : Qos :=
  { reliability := some { kind := .BEST_EFFORT, max_blocking_time := DDS_100MS_DURATION },
    durability := some { kind := .TRANSIENT_LOCAL },
    history := some { kind := .KEEP_LAST, depth := 5 },
    durability_service := none }

def c9q : Qos :=
  { reliability := none,
    durability := some { kind := .TRANSIENT_LOCAL },
    history := some { kind := .KEEP_LAST, depth := 5 },
    durability_service := some { DurabilityService.default with max_instances := 10 } }

def c6node : NodeInfo := NodeInfo.create "/" "n6" 3

theorem C10_test (n : NodeInfo) (entity : DdsEntity)
    (h : entity.topic_name.length < 3) :
    n.update_with_reader entity = none ∧ n.update_with_writer entity = none := by
  have hlen : entity.topic_name.data.length < 3 := h
  have h3 : strSliceTo entity.topic_name 3 = none := by
    simp [strSliceTo]
    omega
  constructor
  · simp [NodeInfo.update_with_reader, h3]
  · simp [NodeInfo.update_with_writer, h3]

theorem C10_test2 (n : NodeInfo) (entity : DdsEntity)
    (h : 3 ≤ entity.topic_name.length) :
    (n.update_with_reader entity).isSome ∧ (n.update_with_writer entity).isSome := by
  have h3 : strSliceTo entity.topic_name 3 = some (String.mk (entity.topic_name.data.take 3)) := by
    simp [strSliceTo]
    exact h
  have h2 : strSliceFrom entity.topic_name 2 = some (String.mk (entity.topic_name.data.drop 2)) := by
    simp [strSliceFrom]
    omega
  constructor
  · simp [NodeInfo.update_with_reader, h3, h2]
  · simp [NodeInfo.update_with_writer, h3, h2]

theorem i32AsUsize_of_nonneg {i : Int} (h0 : 0 ≤ i) (h1 : i < 2 ^ 64) :
    i32AsUsize i = i.toNat := by
  unfold i32AsUsize
  rw [Int.emod_eq_of_lt h0 (by omega)]

/-- C9: the publication-cache depth of a publisher route created from a
transient-local QoS equals the claimed formula: KEEP_ALL gives the usize
maximum; KEEP_LAST n gives n when the topic is keyless; keyed gives the usize
maximum when max_instances is unlimited, n * max_instances saturating on i32
overflow when max_instances is positive, and n otherwise. -/
theorem C9_test (keyless : Bool) (q : Qos) (k : HistoryKind) (n : Int)
    (htl : is_transient_local q = true)
    (hh : q.history = some { kind := k, depth := n })
    (hn : 0 ≤ n) (hn2 : n < 2 ^ 31) :
    routePublisherCacheHistory keyless q =
      some (claimedCacheDepth keyless k n
        (get_durability_service_or_default q).max_instances) := by
  have hhist : get_history_or_default q = { kind := k, depth := n } := by
    simp [get_history_or_default, hh]
  simp only [routePublisherCacheHistory, htl, if_true, hhist, claimedCacheDepth]
  generalize (get_durability_service_or_default q).max_instances = mi
  rcases k with _ | _
  · -- KEEP_LAST
    rcases keyless with _ | _
    · -- keyless = false
      simp only [Bool.false_eq_true, if_false]
      by_cases h1 : mi = DDS_LENGTH_UNLIMITED
      · simp [h1]
      · rw [if_neg h1, if_neg h1]
        by_cases h2 : mi > 0
        · rw [if_pos h2, if_pos h2]
          by_cases h3 : n * mi < 2 ^ 31
          · have hprod : (0 : Int) ≤ n * mi := mul_nonneg hn (le_of_lt h2)
            have hmul : i32CheckedMul n mi = some (n * mi) := by
              simp only [i32CheckedMul]
              rw [if_pos (by constructor <;> omega)]
            rw [hmul, if_pos h3]
            exact congrArg some (i32AsUsize_of_nonneg hprod (by
              have : (2 ^ 31 : Int) < 2 ^ 64 := by norm_num
              omega))
          · have hmul : i32CheckedMul n mi = none := by
              simp only [i32CheckedMul]
              split
              · omega
              · rfl
            rw [hmul, if_neg h3]
        · rw [if_neg h2, if_neg h2]
          rw [i32AsUsize_of_nonneg hn (by omega)]
    · -- keyless = true
      simp only [if_true]
      rw [i32AsUsize_of_nonneg hn (by omega)]
  · -- KEEP_ALL
    rfl

theorem alookup_append_self {κ α : Type} [BEq κ] [LawfulBEq κ]
    (m : List (κ × α)) (k : κ) (v : α) (h : alookup m k = none) :
    alookup (m ++ [(k, v)]) k = some v := by
  simp only [alookup] at h ⊢
  have hf : m.find? (fun p => p.1 == k) = none := by
    rcases hm : m.find? (fun p => p.1 == k) with _ | p
    · exact hm
    · rw [hm] at h
      simp at h
  rw [List.find?_append, hf]
  simp [List.find?]

theorem alookup_append_ne {κ α : Type} [BEq κ] [LawfulBEq κ]
    (m : List (κ × α)) (k k2 : κ) (v : α) (h : ¬ k2 = k) :
    alookup (m ++ [(k2, v)]) k = alookup m k := by
  simp only [alookup, List.find?_append]
  rcases hm : m.find? (fun p => p.1 == k) with _ | p
  · rw [hm]
    have hb : (k2 == k) = false := by simp [h]
    simp [List.find?, hb]
  · rw [hm]
    simp

/-- C6: service-server completion. Updating a fresh service entry with only
the request reader (or only the reply writer) stores an incomplete
`ServiceSrv` (`is_complete = false`) and returns no event; an update
completing the second side returns the `DiscoveredServiceSrv` event; and for
any prior state a returned event always carries a complete interface. -/
theorem C6_test (n m : NodeInfo) (name typ : String) (g g' : Gid)
    (hg : g ≠ Gid.NOT_DISCOVERED) (hg' : g' ≠ Gid.NOT_DISCOVERED)
    (hnone : alookup n.service_srv name = none) :
    serviceSrvEventComplete (m.update_service_srv_req_reader name typ g).2 = true
    ∧ serviceSrvEventComplete (m.update_service_srv_rep_writer name typ g).2 = true
    ∧ (n.update_service_srv_req_reader name typ g).2 = none
    ∧ ((alookup (n.update_service_srv_req_reader name typ g).1.service_srv name).map
         ServiceSrv.is_complete) = some false
    ∧ (n.update_service_srv_rep_writer name typ g).2 = none
    ∧ ((alookup (n.update_service_srv_rep_writer name typ g).1.service_srv name).map
         ServiceSrv.is_complete) = some false
    ∧ (((n.update_service_srv_req_reader name typ g).1).update_service_srv_rep_writer
          name typ g').2
        = some (.DiscoveredServiceSrv n.fullname
            { name := name, typ := typ,
              entities := { req_reader := g, rep_writer := g' } }) := by
  refine ⟨?_, ?_, ?_, ?_, ?_, ?_, ?_⟩
  · unfold NodeInfo.update_service_srv_req_reader
    rcases halo : alookup m.service_srv name with _ | v0
    · simp [serviceSrvEventComplete]
    · simp only []
      split_ifs <;> simp_all [serviceSrvEventComplete]
  · unfold NodeInfo.update_service_srv_rep_writer
    rcases halo : alookup m.service_srv name with _ | v0
    · simp [serviceSrvEventComplete]
    · simp only []
      split_ifs <;> simp_all [serviceSrvEventComplete]
  · simp [NodeInfo.update_service_srv_req_reader, hnone]
  · simp only [NodeInfo.update_service_srv_req_reader, hnone]
    rw [alookup_append_self _ _ _ hnone]
    simp [ServiceSrv.is_complete, ServiceSrvEntities.is_complete,
      ServiceSrv.create, ServiceSrvEntities.default]
  · simp [NodeInfo.update_service_srv_rep_writer, hnone]
  · simp only [NodeInfo.update_service_srv_rep_writer, hnone]
    rw [alookup_append_self _ _ _ hnone]
    simp [ServiceSrv.is_complete, ServiceSrvEntities.is_complete,
      ServiceSrv.create, ServiceSrvEntities.default]
  · have h1 : (n.update_service_srv_req_reader name typ g).1.service_srv
        = n.service_srv ++ [(name,
            { ServiceSrv.create name typ with
              entities := { ServiceSrvEntities.default with req_reader := g } })] := by
      simp [NodeInfo.update_service_srv_req_reader, hnone]
    have hfull : (n.update_service_srv_req_reader name typ g).1.fullname = n.fullname := by
      simp [NodeInfo.update_service_srv_req_reader, hnone]
    unfold NodeInfo.update_service_srv_rep_writer
    rw [h1, alookup_append_self _ _ _ hnone, hfull]
    simp [ServiceSrv.create, ServiceSrvEntities.default, ServiceSrv.is_complete,
      ServiceSrvEntities.is_complete, hg, hg', Ne.symm hg']

theorem find?_isSome_eq_any {α : Type} (l : List α) (p : α → Bool) :
    (l.find? p).isSome = l.any p := by
  induction l with
  | nil => rfl
  | cons x xs ih =>
    by_cases h : p x <;> simp [List.find?, h, ih]

/-- C1 (amended): for every node, `remove_reader g` / `remove_writer g` return
an Undiscovered* event iff some stored interface of the node references `g`
(whether or not that interface is complete), and `remove_all_entities` emits
exactly one Undiscovered* event per stored interface and leaves the node with
no interfaces. Completeness is never consulted by the removal code. -/
theorem C1_test (n : NodeInfo) (g : Gid) :
    (n.remove_reader g).2.isSome = n.usesReader g
    ∧ (n.remove_writer g).2.isSome = n.usesWriter g
    ∧ (n.remove_all_entities).2.length = n.interfaceCount
    ∧ (n.remove_all_entities).1.interfaceCount = 0 := by
  refine ⟨?_, ?_, ?_, ?_⟩
  · unfold NodeInfo.remove_reader
    simp only [NodeInfo.usesReader, ← find?_isSome_eq_any]
    repeat' split
    all_goals (simp only [*]; try simp)
  · unfold NodeInfo.remove_writer
    simp only [NodeInfo.usesWriter, ← find?_isSome_eq_any]
    repeat' split
    all_goals (simp only [*]; try simp)
  · simp only [NodeInfo.remove_all_entities, NodeInfo.interfaceCount, List.length_append,
      List.length_map]
    try omega
  · rfl

/-- C1 counterexample: a node holding a service server whose reply writer is
still `NOT_DISCOVERED` (so `is_complete = false`) nevertheless yields an
`UndiscoveredServiceSrv` event from `remove_all_entities` and from
`remove_reader` on its request reader, refuting "no event for an interface
that was not complete when removed". -/
theorem C1_cex_test :
    (c1node.remove_all_entities).2 = [.UndiscoveredServiceSrv "/n" c1srv]
      ∧ ((c1node.remove_reader 5).2.map ROS2DiscoveryEvent.isUndiscovered) = some true
      ∧ c1srv.is_complete = false := by
  decide

/-- C7 counterexample: the concrete run returns the event with type
`pkg::dds_::Foo_`, not `pkg/Foo`, refuting the claimed type conversion. -/
theorem C7_cex_test :
    ((DiscoveredEntities.add_writer {} w1x).update_participant_info m1x).map
        (fun r => r.2) =
      some [.DiscoveredTopicPub "/n" { name := "foo", typ := "pkg::dds_::Foo_", writer := 7 }] := by
  decide

theorem updOk_topic_pub (n : NodeInfo) (name typ : String) (g : Gid) :
    ((n.update_topic_pub name typ g).2.all (fun e => !e.isUndiscovered)) = true := by
  simp only [NodeInfo.update_topic_pub]
  repeat' split
  all_goals simp [ROS2DiscoveryEvent.isUndiscovered]

theorem updOk_topic_sub (n : NodeInfo) (name typ : String) (g : Gid) :
    ((n.update_topic_sub name typ g).2.all (fun e => !e.isUndiscovered)) = true := by
  simp only [NodeInfo.update_topic_sub]
  repeat' split
  all_goals simp [ROS2DiscoveryEvent.isUndiscovered]

theorem updOk_service_srv_req_reader (n : NodeInfo) (name typ : String) (g : Gid) :
    ((n.update_service_srv_req_reader name typ g).2.all (fun e => !e.isUndiscovered)) = true := by
  simp only [NodeInfo.update_service_srv_req_reader]
  repeat' split
  all_goals simp [ROS2DiscoveryEvent.isUndiscovered]

theorem updOk_service_srv_rep_writer (n : NodeInfo) (name typ : String) (g : Gid) :
    ((n.update_service_srv_rep_writer name typ g).2.all (fun e => !e.isUndiscovered)) = true := by
  simp only [NodeInfo.update_service_srv_rep_writer]
  repeat' split
  all_goals simp [ROS2DiscoveryEvent.isUndiscovered]

theorem updOk_service_cli_rep_reader (n : NodeInfo) (name typ : String) (g : Gid) :
    ((n.update_service_cli_rep_reader name typ g).2.all (fun e => !e.isUndiscovered)) = true := by
  simp only [NodeInfo.update_service_cli_rep_reader]
  repeat' split
  all_goals simp [ROS2DiscoveryEvent.isUndiscovered]

theorem updOk_service_cli_req_writer (n : NodeInfo) (name typ : String) (g : Gid) :
    ((n.update_service_cli_req_writer name typ g).2.all (fun e => !e.isUndiscovered)) = true := by
  simp only [NodeInfo.update_service_cli_req_writer]
  repeat' split
  all_goals simp [ROS2DiscoveryEvent.isUndiscovered]

theorem updOk_action_srv_send_req_reader (n : NodeInfo) (name typ : String) (g : Gid) :
    ((n.update_action_srv_send_req_reader name typ g).2.all (fun e => !e.isUndiscovered)) = true := by
  simp only [NodeInfo.update_action_srv_send_req_reader]
  repeat' split
  all_goals simp [ROS2DiscoveryEvent.isUndiscovered]

theorem updOk_action_srv_send_rep_writer (n : NodeInfo) (name typ : String) (g : Gid) :
    ((n.update_action_srv_send_rep_writer name typ g).2.all (fun e => !e.isUndiscovered)) = true := by
  simp only [NodeInfo.update_action_srv_send_rep_writer]
  repeat' split
  all_goals simp [ROS2DiscoveryEvent.isUndiscovered]

theorem updOk_action_srv_result_req_reader (n : NodeInfo) (name typ : String) (g : Gid) :
    ((n.update_action_srv_result_req_reader name typ g).2.all (fun e => !e.isUndiscovered)) = true := by
  simp only [NodeInfo.update_action_srv_result_req_reader]
  repeat' split
  all_goals simp [ROS2DiscoveryEvent.isUndiscovered]

theorem updOk_action_srv_result_rep_writer (n : NodeInfo) (name typ : String) (g : Gid) :
    ((n.update_action_srv_result_rep_writer name typ g).2.all (fun e => !e.isUndiscovered)) = true := by
  simp only [NodeInfo.update_action_srv_result_rep_writer]
  repeat' split
  all_goals simp [ROS2DiscoveryEvent.isUndiscovered]

theorem updOk_action_srv_feedback_writer (n : NodeInfo) (name typ : String) (g : Gid) :
    ((n.update_action_srv_feedback_writer name typ g).2.all (fun e => !e.isUndiscovered)) = true := by
  simp only [NodeInfo.update_action_srv_feedback_writer]
  repeat' split
  all_goals simp [ROS2DiscoveryEvent.isUndiscovered]

theorem updOk_action_cli_send_rep_reader (n : NodeInfo) (name typ : String) (g : Gid) :
    ((n.update_action_cli_send_rep_reader name typ g).2.all (fun e => !e.isUndiscovered)) = true := by
  simp only [NodeInfo.update_action_cli_send_rep_reader]
  repeat' split
  all_goals simp [ROS2DiscoveryEvent.isUndiscovered]

theorem updOk_action_cli_send_req_writer (n : NodeInfo) (name typ : String) (g : Gid) :
    ((n.update_action_cli_send_req_writer name typ g).2.all (fun e => !e.isUndiscovered)) = true := by
  simp only [NodeInfo.update_action_cli_send_req_writer]
  repeat' split
  all_goals simp [ROS2DiscoveryEvent.isUndiscovered]

theorem updOk_action_cli_result_rep_reader (n : NodeInfo) (name typ : String) (g : Gid) :
    ((n.update_action_cli_result_rep_reader name typ g).2.all (fun e => !e.isUndiscovered)) = true := by
  simp only [NodeInfo.update_action_cli_result_rep_reader]
  repeat' split
  all_goals simp [ROS2DiscoveryEvent.isUndiscovered]

theorem updOk_action_cli_result_req_writer (n : NodeInfo) (name typ : String) (g : Gid) :
    ((n.update_action_cli_result_req_writer name typ g).2.all (fun e => !e.isUndiscovered)) = true := by
  simp only [NodeInfo.update_action_cli_result_req_writer]
  repeat' split
  all_goals simp [ROS2DiscoveryEvent.isUndiscovered]

theorem updOk_action_cli_feedback_reader (n : NodeInfo) (name typ : String) (g : Gid) :
    ((n.update_action_cli_feedback_reader name typ g).2.all (fun e => !e.isUndiscovered)) = true := by
  simp only [NodeInfo.update_action_cli_feedback_reader]
  repeat' split
  all_goals simp [ROS2DiscoveryEvent.isUndiscovered]

theorem updOk_action_srv_cancel_req_reader (n : NodeInfo) (name : String) (g : Gid) :
    ((n.update_action_srv_cancel_req_reader name g).2.all (fun e => !e.isUndiscovered)) = true := by
  simp only [NodeInfo.update_action_srv_cancel_req_reader]
  repeat' split
  all_goals simp [ROS2DiscoveryEvent.isUndiscovered]

theorem updOk_action_srv_cancel_rep_writer (n : NodeInfo) (name : String) (g : Gid) :
    ((n.update_action_srv_cancel_rep_writer name g).2.all (fun e => !e.isUndiscovered)) = true := by
  simp only [NodeInfo.update_action_srv_cancel_rep_writer]
  repeat' split
  all_goals simp [ROS2DiscoveryEvent.isUndiscovered]

theorem updOk_action_srv_status_writer (n : NodeInfo) (name : String) (g : Gid) :
    ((n.update_action_srv_status_writer name g).2.all (fun e => !e.isUndiscovered)) = true := by
  simp only [NodeInfo.update_action_srv_status_writer]
  repeat' split
  all_goals simp [ROS2DiscoveryEvent.isUndiscovered]

theorem updOk_action_cli_cancel_rep_reader (n : NodeInfo) (name : String) (g : Gid) :
    ((n.update_action_cli_cancel_rep_reader name g).2.all (fun e => !e.isUndiscovered)) = true := by
  simp only [NodeInfo.update_action_cli_cancel_rep_reader]
  repeat' split
  all_goals simp [ROS2DiscoveryEvent.isUndiscovered]

theorem updOk_action_cli_cancel_req_writer (n : NodeInfo) (name : String) (g : Gid) :
    ((n.update_action_cli_cancel_req_writer name g).2.all (fun e => !e.isUndiscovered)) = true := by
  simp only [NodeInfo.update_action_cli_cancel_req_writer]
  repeat' split
  all_goals simp [ROS2DiscoveryEvent.isUndiscovered]

theorem updOk_action_cli_status_reader (n : NodeInfo) (name : String) (g : Gid) :
    ((n.update_action_cli_status_reader name g).2.all (fun e => !e.isUndiscovered)) = true := by
  simp only [NodeInfo.update_action_cli_status_reader]
  repeat' split
  all_goals simp [ROS2DiscoveryEvent.isUndiscovered]

theorem optionToList_all {α : Type} (o : Option α) (p : α → Bool) :
    o.toList.all p = o.all p := by
  cases o <;> simp [Option.toList, Option.all]

theorem manifestReaderStep_ok (node : NodeInfo) (entity : DdsEntity) (rgid : Gid) :
    (manifestReaderStep node entity rgid).all
      (fun out => out.2.all (fun e => !e.isUndiscovered)) = true := by
  unfold manifestReaderStep
  repeat' split
  all_goals simp only [Option.all_some, Option.all_none]
  all_goals
    first
      | rfl
      | exact updOk_action_cli_status_reader _ _ _
      | exact updOk_action_cli_feedback_reader _ _ _ _
      | exact updOk_topic_sub _ _ _ _
      | exact updOk_action_srv_send_req_reader _ _ _ _
      | exact updOk_action_srv_cancel_req_reader _ _ _
      | exact updOk_action_srv_result_req_reader _ _ _ _
      | exact updOk_service_srv_req_reader _ _ _ _
      | exact updOk_action_cli_send_rep_reader _ _ _ _
      | exact updOk_action_cli_cancel_rep_reader _ _ _
      | exact updOk_action_cli_result_rep_reader _ _ _ _
      | exact updOk_service_cli_rep_reader _ _ _ _

theorem manifestWriterStep_ok (node : NodeInfo) (entity : DdsEntity) (wgid : Gid) :
    (manifestWriterStep node entity wgid).all
      (fun out => out.2.all (fun e => !e.isUndiscovered)) = true := by
  unfold manifestWriterStep
  repeat' split
  all_goals simp only [Option.all_some, Option.all_none]
  all_goals
    first
      | rfl
      | exact updOk_action_srv_status_writer _ _ _
      | exact updOk_action_srv_feedback_writer _ _ _ _
      | exact updOk_topic_pub _ _ _ _
      | exact updOk_action_cli_send_req_writer _ _ _ _
      | exact updOk_action_cli_cancel_req_writer _ _ _
      | exact updOk_action_cli_result_req_writer _ _ _ _
      | exact updOk_service_cli_req_writer _ _ _ _
      | exact updOk_action_srv_send_rep_writer _ _ _ _
      | exact updOk_action_srv_cancel_rep_writer _ _ _
      | exact updOk_action_srv_result_rep_writer _ _ _ _
      | exact updOk_service_srv_rep_writer _ _ _ _

theorem processReaderGids_ok (readers : List (Gid × DdsEntity)) (gids : List Gid) :
    ∀ node evs out, evs.all (fun e => !e.isUndiscovered) = true →
      processReaderGids readers node evs gids = some out →
      out.2.all (fun e => !e.isUndiscovered) = true := by
  induction gids with
  | nil =>
    intro node evs out hevs hrun
    simp only [processReaderGids] at hrun
    cases hrun
    exact hevs
  | cons g rest ih =>
    intro node evs out hevs hrun
    rw [processReaderGids] at hrun
    rcases halo : alookup readers g with _ | entity
    · simp only [halo] at hrun
      exact ih _ _ _ hevs hrun
    · simp only [halo] at hrun
      rcases hms : manifestReaderStep node entity g with _ | stepOut
      · simp only [hms] at hrun
        cases hrun
      · obtain ⟨node2, ev⟩ := stepOut
        simp only [hms] at hrun
        have hok := manifestReaderStep_ok node entity g
        simp only [hms, Option.all_some] at hok
        refine ih _ _ _ ?_ hrun
        rw [List.all_append, hevs, Bool.true_and, optionToList_all]
        exact hok

theorem processWriterGids_ok (writers : List (Gid × DdsEntity)) (gids : List Gid) :
    ∀ node evs out, evs.all (fun e => !e.isUndiscovered) = true →
      processWriterGids writers node evs gids = some out →
      out.2.all (fun e => !e.isUndiscovered) = true := by
  induction gids with
  | nil =>
    intro node evs out hevs hrun
    simp only [processWriterGids] at hrun
    cases hrun
    exact hevs
  | cons g rest ih =>
    intro node evs out hevs hrun
    rw [processWriterGids] at hrun
    rcases halo : alookup writers g with _ | entity
    · simp only [halo] at hrun
      exact ih _ _ _ hevs hrun
    · simp only [halo] at hrun
      rcases hms : manifestWriterStep node entity g with _ | stepOut
      · simp only [hms] at hrun
        cases hrun
      · obtain ⟨node2, ev⟩ := stepOut
        simp only [hms] at hrun
        have hok := manifestWriterStep_ok node entity g
        simp only [hms, Option.all_some] at hok
        refine ih _ _ _ ?_ hrun
        rw [List.all_append, hevs, Bool.true_and, optionToList_all]
        exact hok

theorem update_node_info_evs_not_undiscovered (node : NodeInfo) (ni : NodeEntitiesInfo)
    (readers writers : List (Gid × DdsEntity)) (out : NodeInfo × List ROS2DiscoveryEvent)
    (hrun : update_node_info node ni readers writers = some out) :
    out.2.all (fun e => !e.isUndiscovered) = true := by
  unfold update_node_info at hrun
  rcases h1 : processReaderGids readers node [] ni.reader_gid_seq with _ | out1
  · rw [h1] at hrun
    cases hrun
  · rw [h1] at hrun
    obtain ⟨node1, evs1⟩ := out1
    rcases h2 : processWriterGids writers node1 evs1 ni.writer_gid_seq with _ | out2
    · simp only [h2] at hrun
      cases hrun
    · obtain ⟨node2, evs2⟩ := out2
      simp only [h2] at hrun
      cases hrun
      exact processWriterGids_ok writers _ _ _ _
        (processReaderGids_ok readers _ _ _ _ (by rfl) h1) h2

theorem alookup_map_replace {κ α : Type} [BEq κ] [LawfulBEq κ]
    (m : List (κ × α)) (k : κ) (v : α) (h : (alookup m k).isSome = true) :
    alookup (m.map (fun p => if p.1 == k then (k, v) else p)) k = some v := by
  induction m with
  | nil => simp [alookup] at h
  | cons x xs ih =>
    rcases hx : x.1 == k with _ | _
    · simp only [alookup, List.find?_cons, hx] at h
      simp only [List.map_cons, hx, Bool.false_eq_true, if_false, alookup, List.find?_cons, hx]
      exact ih h
    · simp [alookup, List.find?_cons, hx]

theorem alookup_ainsert_self {κ α : Type} [BEq κ] [LawfulBEq κ]
    (m : List (κ × α)) (k : κ) (v : α) :
    alookup (ainsert m k v) k = some v := by
  unfold ainsert
  split
  · exact alookup_map_replace m k v (by assumption)
  · refine alookup_append_self m k v ?_
    rcases hm : alookup m k with _ | w
    · rfl
    · simp_all

theorem alookup_map_replace_ne {κ α : Type} [BEq κ] [LawfulBEq κ]
    (m : List (κ × α)) (k k2 : κ) (v : α) (h : ¬ k2 = k) :
    alookup (m.map (fun p => if p.1 == k2 then (k2, v) else p)) k = alookup m k := by
  induction m with
  | nil => rfl
  | cons x xs ih =>
    rcases hx : x.1 == k2 with _ | _
    · simp only [List.map_cons, hx, Bool.false_eq_true, if_false]
      rcases hxk : x.1 == k with _ | _
      · simp only [alookup, List.find?_cons, hxk]
        exact ih
      · simp [alookup, List.find?_cons, hxk]
    · have hx2 : (x.1 == k) = false := by
        have hxe : x.1 = k2 := by simpa using hx
        simp [hxe, h]
      have hk2 : (k2 == k) = false := by simp [h]
      simp only [List.map_cons, hx, if_true, alookup, List.find?_cons, hk2, hx2]
      exact ih

theorem alookup_ainsert_ne {κ α : Type} [BEq κ] [LawfulBEq κ]
    (m : List (κ × α)) (k k2 : κ) (v : α) (h : ¬ k2 = k) :
    alookup (ainsert m k2 v) k = alookup m k := by
  unfold ainsert
  split
  · exact alookup_map_replace_ne m k k2 v h
  · exact alookup_append_ne m k k2 v h

theorem alookup_aerase_self {κ α : Type} [BEq κ] [LawfulBEq κ]
    (m : List (κ × α)) (k : κ) :
    alookup (aerase m k) k = none := by
  have hf : List.find? (fun p => p.1 == k) (aerase m k) = none := by
    rw [List.find?_eq_none]
    intro p hp
    rcases List.mem_filter.mp hp with ⟨_, hne⟩
    simpa using hne
  simp [alookup, hf]

theorem alookup_aerase_of_none {κ α : Type} [BEq κ] [LawfulBEq κ]
    (m : List (κ × α)) (k k2 : κ) (h : alookup m k = none) :
    alookup (aerase m k2) k = none := by
  have hf : List.find? (fun p => p.1 == k) m = none := by
    rcases hm : List.find? (fun p => p.1 == k) m with _ | p
    · exact hm
    · rw [alookup, hm] at h
      simp at h
  have hf2 : List.find? (fun p => p.1 == k) (aerase m k2) = none := by
    rw [List.find?_eq_none] at hf ⊢
    intro p hp
    exact hf p (List.mem_of_mem_filter hp)
  simp [alookup, hf2]

theorem alookup_foldl_aerase_of_none {κ α β : Type} [BEq κ] [LawfulBEq κ]
    (l : List β) (key : β → κ) (m : List (κ × α)) (k : κ) (h : alookup m k = none) :
    alookup (l.foldl (fun a b => aerase a (key b)) m) k = none := by
  induction l generalizing m with
  | nil => exact h
  | cons x xs ih => exact ih _ (alookup_aerase_of_none _ _ _ h)

theorem alookup_foldl_aerase_of_mem {κ α β : Type} [BEq κ] [LawfulBEq κ]
    (l : List β) (key : β → κ) (m : List (κ × α)) (b : β) (hb : b ∈ l) :
    alookup (l.foldl (fun a b2 => aerase a (key b2)) m) (key b) = none := by
  induction l generalizing m with
  | nil => cases hb
  | cons x xs ih =>
    rcases List.mem_cons.mp hb with heq | hmem
    · subst heq
      simp only [List.foldl_cons]
      exact alookup_foldl_aerase_of_none xs key _ _ (alookup_aerase_self m (key b))
    · simp only [List.foldl_cons]
      exact ih _ hmem

theorem processManifestNodes_evs_ok (readers writers : List (Gid × DdsEntity)) (pgid : Gid)
    (ms : List (String × NodeEntitiesInfo)) :
    ∀ nodesMap admin evs out,
      evs.all (fun e => !e.isUndiscovered) = true →
      processManifestNodes readers writers pgid nodesMap admin evs ms = some out →
      out.2.2.all (fun e => !e.isUndiscovered) = true := by
  induction ms with
  | nil =>
    intro nodesMap admin evs out hevs hrun
    simp only [processManifestNodes] at hrun
    cases hrun
    exact hevs
  | cons q rest ih =>
    obtain ⟨name, ni⟩ := q
    intro nodesMap admin evs out hevs hrun
    rw [processManifestNodes] at hrun
    rcases halo : alookup nodesMap name with _ | nd
    all_goals simp only [halo] at hrun
    · rcases h1 : update_node_info (NodeInfo.create ni.node_namespace ni.node_name pgid)
          ni readers writers with _ | out1
      · simp only [h1] at hrun
        cases hrun
      · obtain ⟨node2, evs2⟩ := out1
        simp only [h1] at hrun
        refine ih _ _ _ _ ?_ hrun
        rw [List.all_append, hevs, Bool.true_and]
        exact update_node_info_evs_not_undiscovered _ _ _ _ _ h1
    · rcases h1 : update_node_info nd ni readers writers with _ | out1
      · simp only [h1] at hrun
        cases hrun
      · obtain ⟨node2, evs2⟩ := out1
        simp only [h1] at hrun
        refine ih _ _ _ _ ?_ hrun
        rw [List.all_append, hevs, Bool.true_and]
        exact update_node_info_evs_not_undiscovered _ _ _ _ _ h1

theorem processManifestNodes_lookup_none (readers writers : List (Gid × DdsEntity)) (pgid : Gid)
    (ms : List (String × NodeEntitiesInfo)) :
    ∀ nodesMap admin evs out,
      processManifestNodes readers writers pgid nodesMap admin evs ms = some out →
      ∀ name, (∀ q ∈ ms, ¬ q.1 = name) →
        alookup nodesMap name = none →
        alookup out.1 name = none := by
  induction ms with
  | nil =>
    intro nodesMap admin evs out hrun name _ hnone
    simp only [processManifestNodes] at hrun
    cases hrun
    exact hnone
  | cons q rest ih =>
    obtain ⟨nm, ni⟩ := q
    intro nodesMap admin evs out hrun name hms hnone
    have hne : ¬ nm = name := by
      have := hms (nm, ni) (List.mem_cons_self _ _)
      simpa using this
    rw [processManifestNodes] at hrun
    rcases halo : alookup nodesMap nm with _ | nd
    all_goals simp only [halo] at hrun
    · rcases h1 : update_node_info (NodeInfo.create ni.node_namespace ni.node_name pgid)
          ni readers writers with _ | out1
      · simp only [h1] at hrun
        cases hrun
      · obtain ⟨node2, evs2⟩ := out1
        simp only [h1] at hrun
        refine ih _ _ _ _ hrun name (fun q hq => hms q (List.mem_cons_of_mem _ hq)) ?_
        rw [alookup_ainsert_ne _ _ _ _ hne]
        exact hnone
    · rcases h1 : update_node_info nd ni readers writers with _ | out1
      · simp only [h1] at hrun
        cases hrun
      · obtain ⟨node2, evs2⟩ := out1
        simp only [h1] at hrun
        refine ih _ _ _ _ hrun name (fun q hq => hms q (List.mem_cons_of_mem _ hq)) ?_
        rw [alookup_ainsert_ne _ _ _ _ hne]
        exact hnone

theorem processManifestNodes_admin_none (readers writers : List (Gid × DdsEntity)) (pgid : Gid)
    (ms : List (String × NodeEntitiesInfo)) :
    ∀ nodesMap admin evs out,
      processManifestNodes readers writers pgid nodesMap admin evs ms = some out →
      ∀ key, (∀ q ∈ ms, ¬ adminKeyNode pgid q.1 = key) →
        alookup admin key = none →
        alookup out.2.1 key = none := by
  induction ms with
  | nil =>
    intro nodesMap admin evs out hrun key _ hnone
    simp only [processManifestNodes] at hrun
    cases hrun
    exact hnone
  | cons q rest ih =>
    obtain ⟨nm, ni⟩ := q
    intro nodesMap admin evs out hrun key hms hnone
    have hne : ¬ adminKeyNode pgid nm = key := by
      have := hms (nm, ni) (List.mem_cons_self _ _)
      simpa using this
    rw [processManifestNodes] at hrun
    rcases halo : alookup nodesMap nm with _ | nd
    all_goals simp only [halo] at hrun
    · rcases h1 : update_node_info (NodeInfo.create ni.node_namespace ni.node_name pgid)
          ni readers writers with _ | out1
      · simp only [h1] at hrun
        cases hrun
      · obtain ⟨node2, evs2⟩ := out1
        simp only [h1] at hrun
        refine ih _ _ _ _ hrun key (fun q hq => hms q (List.mem_cons_of_mem _ hq)) ?_
        rw [alookup_ainsert_ne _ _ _ _ hne]
        exact hnone
    · rcases h1 : update_node_info nd ni readers writers with _ | out1
      · simp only [h1] at hrun
        cases hrun
      · obtain ⟨node2, evs2⟩ := out1
        simp only [h1] at hrun
        refine ih _ _ _ _ hrun key (fun q hq => hms q (List.mem_cons_of_mem _ hq)) ?_
        rw [alookup_ainsert_ne _ _ _ _ hne]
        exact hnone

theorem adminKeyNode_inj (pgid : Gid) (a b : String)
    (ha : a.data.head? = some '/') (hb : b.data.head? = some '/')
    (hne : ¬ a = b) : ¬ adminKeyNode pgid a = adminKeyNode pgid b := by
  intro he
  unfold adminKeyNode at he
  have hdata : "node/".data ++ gidChars pgid ++ [Char.ofNat 47] ++ a.data.drop 1
      = "node/".data ++ gidChars pgid ++ [Char.ofNat 47] ++ b.data.drop 1 := by
    have := congrArg String.data he
    simpa using this
  have hdrop : a.data.drop 1 = b.data.drop 1 := by
    rw [List.append_assoc, List.append_assoc, List.append_assoc, List.append_assoc] at hdata
    exact List.append_cancel_left (List.append_cancel_left (List.append_cancel_left hdata))
  rcases hadat : a.data with _ | ⟨ca, ta⟩
  · rw [hadat] at ha
    cases ha
  · rcases hbdat : b.data with _ | ⟨cb, tb⟩
    · rw [hbdat] at hb
      cases hb
    · rw [hadat] at ha hdrop
      rw [hbdat] at hb hdrop
      simp only [List.head?_cons, Option.some_inj] at ha hb
      simp only [List.drop_one, List.tail_cons] at hdrop
      apply hne
      have : a.data = b.data := by
        rw [hadat, hbdat, ha, hb, hdrop]
      cases a
      cases b
      simp_all

theorem alookup_filter_key_none {κ α : Type} [BEq κ] [LawfulBEq κ]
    (m : List (κ × α)) (pr : κ → Bool) (k : κ) (h : pr k = false) :
    alookup (m.filter (fun p => pr p.1)) k = none := by
  have hf : List.find? (fun p => p.1 == k) (m.filter (fun p => pr p.1)) = none := by
    rw [List.find?_eq_none]
    intro p hp
    rcases List.mem_filter.mp hp with ⟨_, hpr⟩
    intro hbeq
    have : p.1 = k := by simpa using hbeq
    rw [this] at hpr
    simp [h] at hpr
  simp [alookup, hf]

theorem alookup_mem {κ α : Type} [BEq κ] [LawfulBEq κ]
    (m : List (κ × α)) (k : κ) (v : α) (h : alookup m k = some v) : (k, v) ∈ m := by
  simp only [alookup] at h
  rcases hf : m.find? (fun p => p.1 == k) with _ | p
  · rw [hf] at h
    cases h
  · rw [hf] at h
    have hp1 : p.1 = k := by simpa using List.find?_some hf
    have hp2 : p.2 = v := by simpa using h
    have hmem := List.mem_of_find?_eq_some hf
    have : p = (k, v) := by
      cases p
      simp_all
    rw [this] at hmem
    exact hmem

/-- C2 (amended): for every registry state and manifest, when
`update_participant_info` succeeds, a node present under the participant but
absent from the new manifest is removed from the stored node map and its
admin-space entry is erased, and the stored manifest is replaced — but no
Undiscovered* event is emitted for it: every returned event is a Discovered*
event (the removal is silent; `remove_all_entities` is not called). -/
theorem C2_amended_test (s : DiscoveredEntities) (info : ParticipantEntitiesInfo)
    (out : DiscoveredEntities × List ROS2DiscoveryEvent)
    (hrun : s.update_participant_info info = some out)
    (name : String) (node : NodeInfo)
    (hprev : alookup ((alookup s.nodes_info info.gid).getD []) name = some node)
    (hgone : manifestHasNode info name = false)
    (hslash : name.data.head? = some '/')
    (hslash2 : ∀ q ∈ info.node_entities_info_seq, q.1.data.head? = some '/') :
    alookup ((alookup out.1.nodes_info info.gid).getD []) name = none
    ∧ alookup out.1.admin_space (adminKeyNode info.gid name) = none
    ∧ alookup out.1.ros_participant_info info.gid = some info
    ∧ out.2.all (fun e => !e.isUndiscovered) = true := by
  have hmsname : ∀ q ∈ info.node_entities_info_seq, ¬ q.1 = name := by
    intro q hq he
    have : manifestHasNode info name = true := by
      unfold manifestHasNode
      rw [List.any_eq_true]
      exact ⟨q, hq, by simp [he]⟩
    rw [this] at hgone
    cases hgone
  unfold DiscoveredEntities.update_participant_info at hrun
  rcases hpm : processManifestNodes s.readers s.writers info.gid
      (((alookup s.nodes_info info.gid).getD []).filter (fun p => manifestHasNode info p.1))
      ((((alookup s.nodes_info info.gid).getD []).filter
          (fun p => !(manifestHasNode info p.1))).foldl
        (fun a p => aerase a (adminKeyNode info.gid p.1)) s.admin_space)
      [] info.node_entities_info_seq with _ | pres
  · simp only [hpm] at hrun
    cases hrun
  · obtain ⟨nodesMap2, admin2, evs2⟩ := pres
    simp only [hpm] at hrun
    cases hrun
    refine ⟨?_, ?_, ?_, ?_⟩
    · simp only [alookup_ainsert_self, Option.getD_some]
      refine processManifestNodes_lookup_none _ _ _ _ _ _ _ _ hpm name hmsname ?_
      exact alookup_filter_key_none _ (manifestHasNode info) _ hgone
    · refine processManifestNodes_admin_none _ _ _ _ _ _ _ _ hpm _ ?_ ?_
      · intro q hq
        exact adminKeyNode_inj info.gid q.1 name (hslash2 q hq) hslash (hmsname q hq)
      · have hmem : (name, node) ∈ ((alookup s.nodes_info info.gid).getD []).filter
            (fun p => !(manifestHasNode info p.1)) := by
          rw [List.mem_filter]
          exact ⟨alookup_mem _ _ _ hprev, by simp [hgone]⟩
        exact alookup_foldl_aerase_of_mem _ (fun p => adminKeyNode info.gid p.1) _ _ hmem
    · exact alookup_ainsert_self _ _ _
    · exact processManifestNodes_evs_ok _ _ _ _ _ _ _ _ (by rfl) hpm

/-- C2 counterexample: with node `/n` (a complete publisher) stored under
participant 1, an incoming empty manifest removes the node yet returns no
events at all, although `remove_all_entities` on that node would produce
`UndiscoveredTopicPub` — refuting the claimed event emission. -/
theorem C2_cex_test :
    ((c2pre.update_participant_info c2info).map (fun r => r.2)) = some []
    ∧ (alookup ((alookup c2pre.nodes_info 1).getD []) "/n").isSome = true
    ∧ (c2node.remove_all_entities).2 =
        [.UndiscoveredTopicPub "/n" { name := "foo", typ := "pkg::dds_::Foo_", writer := 7 }]
    ∧ ((c2pre.update_participant_info c2info).map
        (fun r => alookup ((alookup r.1.nodes_info 1).getD []) "/n")) = some none := by
  decide

/-- C2 witness: the amended theorem applied to the concrete registry that
holds node `/n` under participant 1 and an empty follow-up manifest. -/
theorem C2_witness_test :
    alookup ((alookup c2post.1.nodes_info c2info.gid).getD []) "/n" = none
    ∧ alookup c2post.1.admin_space (adminKeyNode c2info.gid "/n") = none
    ∧ alookup c2post.1.ros_participant_info c2info.gid = some c2info
    ∧ c2post.2.all (fun e => !e.isUndiscovered) = true :=
  C2_amended_test c2pre c2info c2post (by decide) "/n" c2node (by decide) (by decide)
    (by decide) (by intro q hq; simp [c2info] at hq)

/-- C3 counterexample: a concrete run showing `add_writer` leaves `nodes_info`
(and hence every pending queue) unchanged, refuting the claimed queue scan
and event emission upon the writer's arrival. -/
theorem C3_cex_test :
    ({} : DiscoveredEntities).update_participant_info m1x = some c3run
    ∧ c3run.2 = []
    ∧ (alookup ((alookup c3run.1.nodes_info 1).getD []) "/n").map
        (fun nd => nd.undiscovered_writer) = some [7]
    ∧ (c3run.1.add_writer w1x).nodes_info = c3run.1.nodes_info := by
  decide

/-- C3 (amended): `add_writer` never touches the stored node infos (no pending
queue is scanned), so after a manifest naming a not-yet-known writer W1 the
node's `undiscovered_writer` queue holds W1 and no event was emitted, and
after `add_writer W1` the queue still holds W1 and still no event was
emitted; the `DiscoveredTopicPub` event is only produced when the manifest is
processed again after the writer is known. -/
theorem C3_amended_test :
    (∀ (s : DiscoveredEntities) (w : DdsEntity), (s.add_writer w).nodes_info = s.nodes_info)
    ∧ c3run.2 = []
    ∧ (alookup ((alookup c3run.1.nodes_info 1).getD []) "/n").map
        (fun nd => nd.undiscovered_writer) = some [7]
    ∧ ((c3run.1.add_writer w1x).update_participant_info m1x).map (fun r => r.2) =
        some [.DiscoveredTopicPub "/n" { name := "foo", typ := "pkg::dds_::Foo_", writer := 7 }]
    ∧ ((c3run.1.add_writer w1x).update_participant_info m1x).map
        (fun r => (alookup ((alookup r.1.nodes_info 1).getD []) "/n").map
          (fun nd => nd.undiscovered_writer)) = some (some [7]) := by
  refine ⟨fun s w => rfl, ?_, ?_, ?_, ?_⟩ <;> decide

/-- C4: a `DiscoveredTopicPub` creates the publisher route, but
`RoutesMgr.update` on `UndiscoveredTopicPub` returns the state unchanged: the
node is not removed from `local_nodes` and the route is never dropped, while
`is_unused` itself does hold exactly when both reference sets are empty. This
exhibits the code bug: all Undiscovered* arms of `update` are logging stubs. -/
theorem C4_test :
    RoutesMgr.update {} [(7, w1x)] [] {} (.DiscoveredTopicPub "/a" c4iface) = .ok c4s1
    ∧ alookup c4s1.routes_publishers "foo" =
        some { name := "foo", typ := "t", local_nodes := ["/a"], remote_routes := [] }
    ∧ RoutesMgr.update {} [(7, w1x)] [] c4s1 (.UndiscoveredTopicPub "/a" c4iface) = .ok c4s1
    ∧ RouteEntry.is_unused { name := "foo", typ := "t", local_nodes := [], remote_routes := [] }
        = true
    ∧ RouteEntry.is_unused { name := "foo", typ := "t", local_nodes := ["/a"],
                             remote_routes := [] } = false := by
  decide

/-- C5 counterexample: with the allow policy configured, a
`DiscoveredTopicPub` for the denied interface `bar/baz` still creates a
route, refuting "for interface bar/baz creates no route". -/
theorem C5_cex_test :
    (RoutesMgr.update allowFooCfg [(8, w2x)] [] {} (.DiscoveredTopicPub "/n" c5bad)).map
        (fun s => (alookup s.routes_publishers "bar/baz").isSome) = .ok true
    ∧ allowFoo.is_publisher_allowed "bar/baz" = false := by
  decide

/-- C5 (amended): `update_route_publisher` never consults the configured
allowance: the resulting state is independent of the config, so with
`allow.publishers` matching only names under `foo/`, both the allowed
interface `foo/bar` and the denied interface `bar/baz` get a publisher route,
even though `is_publisher_allowed` itself accepts `foo/bar` and rejects
`bar/baz`. -/
theorem C5_amended_test :
    (∀ (cfg cfg2 : Config) (writers : List (Gid × DdsEntity)) (s : RoutesMgrState)
        (node : String) (iface : TopicPub),
      update_route_publisher cfg writers s node iface
        = update_route_publisher cfg2 writers s node iface)
    ∧ (RoutesMgr.update allowFooCfg [(9, w3x)] [] {} (.DiscoveredTopicPub "/n" c5good)).map
        (fun s => (alookup s.routes_publishers "foo/bar").isSome) = .ok true
    ∧ (RoutesMgr.update allowFooCfg [(8, w2x)] [] {} (.DiscoveredTopicPub "/n" c5bad)).map
        (fun s => (alookup s.routes_publishers "bar/baz").isSome) = .ok true
    ∧ allowFoo.is_publisher_allowed "foo/bar" = true
    ∧ allowFoo.is_publisher_allowed "bar/baz" = false := by
  refine ⟨fun cfg cfg2 writers s node iface => rfl, ?_, ?_, ?_, ?_⟩ <;> decide

/-- C7 (amended): feeding `add_writer` the DDS writer W1 (topic `rt/foo`,
type `pkg::dds_::Foo_`) and then the manifest naming node `/n` with
writers=[W1] yields exactly one `DiscoveredTopicPub` event for `/n` with
interface name `foo` and writer W1 — but the interface's type is the raw DDS
type `pkg::dds_::Foo_`: `update_node_info` passes `entity.type_name` without
the `dds_pubsub_topic_to_ros` conversion (which would give `pkg/Foo`). -/
theorem C7_amended_test :
    ((DiscoveredEntities.add_writer {} w1x).update_participant_info m1x).map
        (fun r => r.2) =
      some [.DiscoveredTopicPub "/n" { name := "foo", typ := "pkg::dds_::Foo_", writer := 7 }]
    ∧ dds_pubsub_topic_to_ros "pkg::dds_::Foo_" = "pkg/Foo" := by
  refine ⟨?_, ?_⟩ <;> decide

theorem digitChar_toNat (d : Nat) (h : d < 10) : (Char.ofNat (48 + d)).toNat = 48 + d := by
  interval_cases d <;> decide

theorem digitChar_isDigit (d : Nat) (h : d < 10) : isDigitChar (Char.ofNat (48 + d)) = true := by
  interval_cases d <;> decide

theorem natDecimalCharsAux_spec :
    ∀ fuel n, n < fuel →
      natDecimalCharsAux fuel n ≠ []
      ∧ (natDecimalCharsAux fuel n).all isDigitChar = true
      ∧ (natDecimalCharsAux fuel n).foldl (fun acc c => acc * 10 + (c.toNat - 48)) 0 = n := by
  intro fuel
  induction fuel with
  | zero => intro n h; omega
  | succ fuel ih =>
    intro n h
    rw [natDecimalCharsAux]
    by_cases h10 : n < 10
    · rw [if_pos h10]
      refine ⟨by simp, ?_, ?_⟩
      · simp [digitChar_isDigit n h10]
      · simp [List.foldl, digitChar_toNat n h10]
    · rw [if_neg h10]
      have hfuel : n / 10 < fuel := by
        have hd : n / 10 < n := Nat.div_lt_self (by omega) (by omega)
        omega
      obtain ⟨hne, hall, hfold⟩ := ih (n / 10) hfuel
      have hm : n % 10 < 10 := Nat.mod_lt _ (by omega)
      refine ⟨by simp, ?_, ?_⟩
      · rw [List.all_append, hall, Bool.true_and]
        simp [digitChar_isDigit _ hm]
      · rw [List.foldl_append, hfold]
        simp only [List.foldl, digitChar_toNat _ hm]
        omega

theorem natDecimalChars_spec (n : Nat) :
    natDecimalChars n ≠ []
    ∧ (natDecimalChars n).all isDigitChar = true
    ∧ (natDecimalChars n).foldl (fun acc c => acc * 10 + (c.toNat - 48)) 0 = n :=
  natDecimalCharsAux_spec (n + 1) n (Nat.lt_succ_self n)

theorem decimalCharsToNat_natDecimalChars (n : Nat) :
    decimalCharsToNat? (natDecimalChars n) = some n := by
  obtain ⟨hne, hall, hfold⟩ := natDecimalChars_spec n
  unfold decimalCharsToNat?
  rw [if_pos ⟨hne, hall⟩, hfold]

theorem parseU32chars_natDecimalChars (n : Nat) (h : n < 2 ^ 32) :
    parseU32chars (natDecimalChars n) = some n := by
  unfold parseU32chars
  rw [decimalCharsToNat_natDecimalChars]
  show (if n < 2 ^ 32 then some n else none) = some n
  rw [if_pos h]

theorem isDigitChar_ne_minus {c : Char} (h : isDigitChar c = true) : ¬ c = Char.ofNat 45 := by
  intro he
  subst he
  exact absurd h (by decide)

theorem parseI32chars_intDecimalChars (i : Int) (h1 : -(2 ^ 31) ≤ i) (h2 : i < 2 ^ 31) :
    parseI32chars (intDecimalChars i) = some i := by
  unfold intDecimalChars
  by_cases hneg : i < 0
  · rw [if_pos hneg]
    simp only [parseI32chars, if_true]
    rw [decimalCharsToNat_natDecimalChars]
    have habs : (i.natAbs : Int) ≤ 2 ^ 31 := by omega
    rw [Option.some_bind, if_pos habs]
    rw [show -(i.natAbs : Int) = i by omega]
  · rw [if_neg hneg]
    obtain ⟨hne, hall, _⟩ := natDecimalChars_spec i.toNat
    rcases hl : natDecimalChars i.toNat with _ | ⟨c, rest⟩
    · exact absurd hl hne
    · have hcdig : isDigitChar c = true := by
        rw [hl] at hall
        simp only [List.all_cons, Bool.and_eq_true] at hall
        exact hall.1
      simp only [parseI32chars]
      rw [if_neg (isDigitChar_ne_minus hcdig)]
      rw [← hl, decimalCharsToNat_natDecimalChars]
      have hlt : ((i.toNat : Int)) < 2 ^ 31 := by omega
      rw [Option.some_bind, if_pos hlt]
      rw [show ((i.toNat : Int)) = i by omega]

theorem splitOnChar_no_sep (sep : Char) (a : List Char) (h : ∀ c ∈ a, ¬ c = sep) :
    splitOnChar sep a = [a] := by
  induction a with
  | nil => rfl
  | cons c t ih =>
    rw [splitOnChar]
    rw [if_neg (h c (List.mem_cons_self _ _))]
    rw [ih (fun c2 hc2 => h c2 (List.mem_cons_of_mem _ hc2))]

theorem splitOnChar_append (sep : Char) (a b : List Char) (h : ∀ c ∈ a, ¬ c = sep) :
    splitOnChar sep (a ++ sep :: b) = a :: splitOnChar sep b := by
  induction a with
  | nil =>
    simp only [List.nil_append]
    rw [splitOnChar, if_pos rfl]
  | cons c t ih =>
    simp only [List.cons_append]
    rw [splitOnChar]
    rw [if_neg (h c (List.mem_cons_self _ _))]
    rw [ih (fun c2 hc2 => h c2 (List.mem_cons_of_mem _ hc2))]

theorem splitOnceChar_append (sep : Char) (a b : List Char) (h : ∀ c ∈ a, ¬ c = sep) :
    splitOnceChar sep (a ++ sep :: b) = some (a, b) := by
  induction a with
  | nil =>
    simp only [List.nil_append]
    rw [splitOnceChar, if_pos rfl]
  | cons c t ih =>
    simp only [List.cons_append]
    rw [splitOnceChar]
    rw [if_neg (h c (List.mem_cons_self _ _))]
    rw [ih (fun c2 hc2 => h c2 (List.mem_cons_of_mem _ hc2))]
    rfl

theorem isDigitChar_ne (c c2 : Char) (h : isDigitChar c = true)
    (h2 : isDigitChar c2 = false) : ¬ c = c2 := by
  intro he
  subst he
  rw [h] at h2
  cases h2

theorem natDecimalChars_no_char (n : Nat) (c2 : Char) (h2 : isDigitChar c2 = false) :
    ∀ c ∈ natDecimalChars n, ¬ c = c2 := by
  intro c hc
  obtain ⟨_, hall, _⟩ := natDecimalChars_spec n
  exact isDigitChar_ne c c2 (by
    rw [List.all_eq_true] at hall
    exact hall c hc) h2

theorem intDecimalChars_no_colon (i : Int) : ∀ c ∈ intDecimalChars i, ¬ c = ':' := by
  intro c hc
  unfold intDecimalChars at hc
  by_cases hneg : i < 0
  · rw [if_pos hneg] at hc
    rcases List.mem_cons.mp hc with heq | hmem
    · subst heq
      decide
    · exact natDecimalChars_no_char i.natAbs ':' (by decide) c hmem
  · rw [if_neg hneg] at hc
    exact natDecimalChars_no_char i.toNat ':' (by decide) c hc

theorem natDecimalChars_isEmpty (n : Nat) : (natDecimalChars n).isEmpty = false := by
  obtain ⟨hne, _, _⟩ := natDecimalChars_spec n
  rcases h : natDecimalChars n with _ | ⟨c, t⟩
  · exact absurd h hne
  · rfl

theorem relKind_fromCode_toCode (k : ReliabilityKind) :
    ReliabilityKind.fromCode k.toCode = k := by
  cases k <;> rfl

theorem durKind_fromCode_toCode (k : DurabilityKind) :
    DurabilityKind.fromCode k.toCode = k := by
  cases k <;> rfl

theorem histKind_fromCode_toCode (k : HistoryKind) :
    HistoryKind.fromCode k.toCode = k := by
  cases k <;> rfl

theorem parseU32_relKind (k : ReliabilityKind) :
    parseU32chars (natDecimalChars k.toCode) = some k.toCode := by
  cases k <;> decide

theorem parseU32_durKind (k : DurabilityKind) :
    parseU32chars (natDecimalChars k.toCode) = some k.toCode := by
  cases k <;> decide

theorem parseU32_histKind (k : HistoryKind) :
    parseU32chars (natDecimalChars k.toCode) = some k.toCode := by
  cases k <;> decide

theorem append_comma_isEmpty (x y : List Char) :
    (x ++ [','] ++ y).isEmpty = false := by
  cases x <;> rfl

theorem splitOnChar_cons_sep (sep : Char) (b : List Char) :
    splitOnChar sep (sep :: b) = [] :: splitOnChar sep b := by
  rw [splitOnChar, if_pos rfl]

theorem C8_hard_case (r : Reliability) (d : Durability) (h : History)
    (hrel : r.max_blocking_time = DDS_100MS_DURATION)
    (hd1 : -(2 ^ 31) ≤ h.depth) (hd2 : h.depth < 2 ^ 31) :
    key_expr_to_qos (qos_to_key_expr true
      { reliability := some r, durability := some d, history := some h,
        durability_service := none })
      = .ok (true, { reliability := some r, durability := some d, history := some h,
                     durability_service := none }) := by
  have hkr := natDecimalChars_no_char r.kind.toCode ':' (by decide)
  have hkd := natDecimalChars_no_char d.kind.toCode ':' (by decide)
  have hkh : ∀ c ∈ natDecimalChars h.kind.toCode ++ ',' :: intDecimalChars h.depth,
      ¬ c = ':' := by
    intro c hc
    rcases List.mem_append.mp hc with hc1 | hc2
    · exact natDecimalChars_no_char _ ':' (by decide) c hc1
    · rcases List.mem_cons.mp hc2 with hc3 | hc4
      · subst hc3
        decide
      · exact intDecimalChars_no_colon h.depth c hc4
  have hsplit : splitOnChar ':' (qos_to_key_expr true
      { reliability := some r, durability := some d, history := some h,
        durability_service := none }).data
      = [[], natDecimalChars r.kind.toCode, natDecimalChars d.kind.toCode,
         natDecimalChars h.kind.toCode ++ ',' :: intDecimalChars h.depth] := by
    unfold qos_to_key_expr
    simp only [if_true, List.append_assoc, List.singleton_append, List.cons_append,
      List.nil_append]
    rw [splitOnChar_cons_sep]
    rw [splitOnChar_append ':' _ _ hkr]
    rw [splitOnChar_append ':' _ _ hkd]
    rw [splitOnChar_no_sep ':' _ hkh]
  unfold key_expr_to_qos
  rw [hsplit]
  simp only [List.isEmpty_nil, natDecimalChars_isEmpty,
    Bool.false_eq_true, if_false, if_true, parseU32_relKind, parseU32_durKind]
  have hempty : (natDecimalChars h.kind.toCode ++ ',' :: intDecimalChars h.depth).isEmpty
      = false := by
    rcases hk : natDecimalChars h.kind.toCode with _ | ⟨c, t⟩ <;> rfl
  rw [hempty]
  simp only [Bool.false_eq_true, if_false]
  rw [splitOnceChar_append ',' _ _ (natDecimalChars_no_char h.kind.toCode ',' (by decide))]
  simp only [parseU32_histKind, parseI32chars_intDecimalChars h.depth hd1 hd2]
  simp only [relKind_fromCode_toCode, durKind_fromCode_toCode, histKind_fromCode_toCode]
  simp only [Except.ok.injEq, Prod.mk.injEq, Qos.mk.injEq, Option.some.injEq]
  cases r
  simp_all [Qos.default, DDS_100MS_DURATION]

/-- C8 (amended): the QoS digest round-trips for every keyless flag and every
Qos that sets only the four tracked fields, provided additionally that any
reliability present carries the 100 ms default max blocking time (the parser
restores that constant) and any history depth fits in i32. -/
theorem C8_amended_test (keyless : Bool) (q : Qos)
    (hds : q.durability_service = none)
    (hrel : ∀ r, q.reliability = some r → r.max_blocking_time = DDS_100MS_DURATION)
    (hdep : ∀ h, q.history = some h → -(2 ^ 31) ≤ h.depth ∧ h.depth < 2 ^ 31) :
    key_expr_to_qos (qos_to_key_expr keyless q) = .ok (keyless, q) := by
  obtain ⟨rel, dur, hist, ds⟩ := q
  have hds' : ds = none := hds
  subst hds'
  have hrel' : ∀ r, rel = some r → r.max_blocking_time = DDS_100MS_DURATION :=
    fun r hr => hrel r hr
  have hdep' : ∀ h, hist = some h → -(2 ^ 31) ≤ h.depth ∧ h.depth < 2 ^ 31 :=
    fun h hh => hdep h hh
  clear hds hrel hdep
  have hk0 : ∀ c ∈ (if keyless then ([] : List Char) else ['K']), ¬ c = ':' := by
    cases keyless
    · intro c hc
      have hc' : c = 'K' := by simpa using hc
      subst hc'
      decide
    · intro c hc
      simp at hc
  have hkE : (if keyless then ([] : List Char) else ['K']).isEmpty = keyless := by
    cases keyless <;> rfl
  rcases rel with _ | r <;> rcases dur with _ | d <;> rcases hist with _ | h
  · -- none, none, none
    have hsplit : splitOnChar ':' (qos_to_key_expr keyless
        { reliability := none, durability := none, history := none,
          durability_service := none }).data
        = [(if keyless then ([] : List Char) else ['K']), [], [], []] := by
      unfold qos_to_key_expr
      simp only [List.append_assoc, List.singleton_append, List.cons_append,
        List.nil_append, List.append_nil]
      rw [splitOnChar_append ':' _ _ hk0]
      rw [splitOnChar_cons_sep, splitOnChar_cons_sep]
      try rfl
    unfold key_expr_to_qos
    rw [hsplit]
    simp only [hkE, List.isEmpty_nil, if_true]
    rfl
  · -- none, none, some h
    obtain ⟨hd1, hd2⟩ := hdep' h rfl
    have hkh : ∀ c ∈ natDecimalChars h.kind.toCode ++ ',' :: intDecimalChars h.depth,
        ¬ c = ':' := by
      intro c hc
      rcases List.mem_append.mp hc with hc1 | hc2
      · exact natDecimalChars_no_char _ ':' (by decide) c hc1
      · rcases List.mem_cons.mp hc2 with hc3 | hc4
        · subst hc3
          decide
        · exact intDecimalChars_no_colon h.depth c hc4
    have hsplit : splitOnChar ':' (qos_to_key_expr keyless
        { reliability := none, durability := none, history := some h,
          durability_service := none }).data
        = [(if keyless then ([] : List Char) else ['K']), [], [],
           natDecimalChars h.kind.toCode ++ ',' :: intDecimalChars h.depth] := by
      unfold qos_to_key_expr
      simp only [List.append_assoc, List.singleton_append, List.cons_append,
        List.nil_append, List.append_nil]
      rw [splitOnChar_append ':' _ _ hk0]
      rw [splitOnChar_cons_sep, splitOnChar_cons_sep]
      rw [splitOnChar_no_sep ':' _ hkh]
      try rfl
    unfold key_expr_to_qos
    rw [hsplit]
    simp only [hkE, List.isEmpty_nil, if_true]
    have hempty : (natDecimalChars h.kind.toCode ++ ',' :: intDecimalChars h.depth).isEmpty
        = false := by
      rcases hk : natDecimalChars h.kind.toCode with _ | ⟨c, t⟩ <;> rfl
    rw [hempty]
    simp only [Bool.false_eq_true, if_false]
    rw [splitOnceChar_append ',' _ _ (natDecimalChars_no_char h.kind.toCode ',' (by decide))]
    simp only [parseU32_histKind, parseI32chars_intDecimalChars h.depth hd1 hd2,
      histKind_fromCode_toCode]
    rfl
  · -- none, some d, none
    have hkd := natDecimalChars_no_char d.kind.toCode ':' (by decide)
    have hsplit : splitOnChar ':' (qos_to_key_expr keyless
        { reliability := none, durability := some d, history := none,
          durability_service := none }).data
        = [(if keyless then ([] : List Char) else ['K']), [],
           natDecimalChars d.kind.toCode, []] := by
      unfold qos_to_key_expr
      simp only [List.append_assoc, List.singleton_append, List.cons_append,
        List.nil_append, List.append_nil]
      rw [splitOnChar_append ':' _ _ hk0]
      rw [splitOnChar_cons_sep]
      rw [splitOnChar_append ':' _ _ hkd]
      try rfl
    unfold key_expr_to_qos
    rw [hsplit]
    simp only [hkE, List.isEmpty_nil, natDecimalChars_isEmpty, Bool.false_eq_true,
      if_false, if_true, parseU32_durKind, durKind_fromCode_toCode]
    rfl
  · -- none, some d, some h
    obtain ⟨hd1, hd2⟩ := hdep' h rfl
    have hkd := natDecimalChars_no_char d.kind.toCode ':' (by decide)
    have hkh : ∀ c ∈ natDecimalChars h.kind.toCode ++ ',' :: intDecimalChars h.depth,
        ¬ c = ':' := by
      intro c hc
      rcases List.mem_append.mp hc with hc1 | hc2
      · exact natDecimalChars_no_char _ ':' (by decide) c hc1
      · rcases List.mem_cons.mp hc2 with hc3 | hc4
        · subst hc3
          decide
        · exact intDecimalChars_no_colon h.depth c hc4
    have hsplit : splitOnChar ':' (qos_to_key_expr keyless
        { reliability := none, durability := some d, history := some h,
          durability_service := none }).data
        = [(if keyless then ([] : List Char) else ['K']), [],
           natDecimalChars d.kind.toCode,
           natDecimalChars h.kind.toCode ++ ',' :: intDecimalChars h.depth] := by
      unfold qos_to_key_expr
      simp only [List.append_assoc, List.singleton_append, List.cons_append,
        List.nil_append, List.append_nil]
      rw [splitOnChar_append ':' _ _ hk0]
      rw [splitOnChar_cons_sep]
      rw [splitOnChar_append ':' _ _ hkd]
      rw [splitOnChar_no_sep ':' _ hkh]
      try rfl
    unfold key_expr_to_qos
    rw [hsplit]
    simp only [hkE, List.isEmpty_nil, natDecimalChars_isEmpty, Bool.false_eq_true,
      if_false, if_true, parseU32_durKind, durKind_fromCode_toCode]
    have hempty : (natDecimalChars h.kind.toCode ++ ',' :: intDecimalChars h.depth).isEmpty
        = false := by
      rcases hk : natDecimalChars h.kind.toCode with _ | ⟨c, t⟩ <;> rfl
    rw [hempty]
    simp only [Bool.false_eq_true, if_false]
    rw [splitOnceChar_append ',' _ _ (natDecimalChars_no_char h.kind.toCode ',' (by decide))]
    simp only [parseU32_histKind, parseI32chars_intDecimalChars h.depth hd1 hd2,
      histKind_fromCode_toCode]
    rfl
  · -- some r, none, none
    obtain ⟨rk, rmb⟩ := r
    have hmb : rmb = DDS_100MS_DURATION := hrel' ⟨rk, rmb⟩ rfl
    subst hmb
    have hkr := natDecimalChars_no_char rk.toCode ':' (by decide)
    have hsplit : splitOnChar ':' (qos_to_key_expr keyless
        { reliability := some ⟨rk, DDS_100MS_DURATION⟩, durability := none,
          history := none, durability_service := none }).data
        = [(if keyless then ([] : List Char) else ['K']),
           natDecimalChars rk.toCode, [], []] := by
      unfold qos_to_key_expr
      simp only [List.append_assoc, List.singleton_append, List.cons_append,
        List.nil_append, List.append_nil]
      rw [splitOnChar_append ':' _ _ hk0]
      rw [splitOnChar_append ':' _ _ hkr]
      rw [splitOnChar_cons_sep]
      try rfl
    unfold key_expr_to_qos
    rw [hsplit]
    simp only [hkE, List.isEmpty_nil, natDecimalChars_isEmpty, Bool.false_eq_true,
      if_false, if_true, parseU32_relKind, relKind_fromCode_toCode]
    rfl
  · -- some r, none, some h
    obtain ⟨rk, rmb⟩ := r
    have hmb : rmb = DDS_100MS_DURATION := hrel' ⟨rk, rmb⟩ rfl
    subst hmb
    obtain ⟨hd1, hd2⟩ := hdep' h rfl
    have hkr := natDecimalChars_no_char rk.toCode ':' (by decide)
    have hkh : ∀ c ∈ natDecimalChars h.kind.toCode ++ ',' :: intDecimalChars h.depth,
        ¬ c = ':' := by
      intro c hc
      rcases List.mem_append.mp hc with hc1 | hc2
      · exact natDecimalChars_no_char _ ':' (by decide) c hc1
      · rcases List.mem_cons.mp hc2 with hc3 | hc4
        · subst hc3
          decide
        · exact intDecimalChars_no_colon h.depth c hc4
    have hsplit : splitOnChar ':' (qos_to_key_expr keyless
        { reliability := some ⟨rk, DDS_100MS_DURATION⟩, durability := none,
          history := some h, durability_service := none }).data
        = [(if keyless then ([] : List Char) else ['K']),
           natDecimalChars rk.toCode, [],
           natDecimalChars h.kind.toCode ++ ',' :: intDecimalChars h.depth] := by
      unfold qos_to_key_expr
      simp only [List.append_assoc, List.singleton_append, List.cons_append,
        List.nil_append, List.append_nil]
      rw [splitOnChar_append ':' _ _ hk0]
      rw [splitOnChar_append ':' _ _ hkr]
      rw [splitOnChar_cons_sep]
      rw [splitOnChar_no_sep ':' _ hkh]
      try rfl
    unfold key_expr_to_qos
    rw [hsplit]
    simp only [hkE, List.isEmpty_nil, natDecimalChars_isEmpty, Bool.false_eq_true,
      if_false, if_true, parseU32_relKind, relKind_fromCode_toCode]
    have hempty : (natDecimalChars h.kind.toCode ++ ',' :: intDecimalChars h.depth).isEmpty
        = false := by
      rcases hk : natDecimalChars h.kind.toCode with _ | ⟨c, t⟩ <;> rfl
    rw [hempty]
    simp only [Bool.false_eq_true, if_false]
    rw [splitOnceChar_append ',' _ _ (natDecimalChars_no_char h.kind.toCode ',' (by decide))]
    simp only [parseU32_histKind, parseI32chars_intDecimalChars h.depth hd1 hd2,
      histKind_fromCode_toCode]
    rfl
  · -- some r, some d, none
    obtain ⟨rk, rmb⟩ := r
    have hmb : rmb = DDS_100MS_DURATION := hrel' ⟨rk, rmb⟩ rfl
    subst hmb
    have hkr := natDecimalChars_no_char rk.toCode ':' (by decide)
    have hkd := natDecimalChars_no_char d.kind.toCode ':' (by decide)
    have hsplit : splitOnChar ':' (qos_to_key_expr keyless
        { reliability := some ⟨rk, DDS_100MS_DURATION⟩, durability := some d,
          history := none, durability_service := none }).data
        = [(if keyless then ([] : List Char) else ['K']),
           natDecimalChars rk.toCode, natDecimalChars d.kind.toCode, []] := by
      unfold qos_to_key_expr
      simp only [List.append_assoc, List.singleton_append, List.cons_append,
        List.nil_append, List.append_nil]
      rw [splitOnChar_append ':' _ _ hk0]
      rw [splitOnChar_append ':' _ _ hkr]
      rw [splitOnChar_append ':' _ _ hkd]
      try rfl
    unfold key_expr_to_qos
    rw [hsplit]
    simp only [hkE, List.isEmpty_nil, natDecimalChars_isEmpty, Bool.false_eq_true,
      if_false, if_true, parseU32_relKind, relKind_fromCode_toCode,
      parseU32_durKind, durKind_fromCode_toCode]
    rfl
  · -- some r, some d, some h
    obtain ⟨rk, rmb⟩ := r
    have hmb : rmb = DDS_100MS_DURATION := hrel' ⟨rk, rmb⟩ rfl
    subst hmb
    obtain ⟨hd1, hd2⟩ := hdep' h rfl
    have hkr := natDecimalChars_no_char rk.toCode ':' (by decide)
    have hkd := natDecimalChars_no_char d.kind.toCode ':' (by decide)
    have hkh : ∀ c ∈ natDecimalChars h.kind.toCode ++ ',' :: intDecimalChars h.depth,
        ¬ c = ':' := by
      intro c hc
      rcases List.mem_append.mp hc with hc1 | hc2
      · exact natDecimalChars_no_char _ ':' (by decide) c hc1
      · rcases List.mem_cons.mp hc2 with hc3 | hc4
        · subst hc3
          decide
        · exact intDecimalChars_no_colon h.depth c hc4
    have hsplit : splitOnChar ':' (qos_to_key_expr keyless
        { reliability := some ⟨rk, DDS_100MS_DURATION⟩, durability := some d,
          history := some h, durability_service := none }).data
        = [(if keyless then ([] : List Char) else ['K']),
           natDecimalChars rk.toCode, natDecimalChars d.kind.toCode,
           natDecimalChars h.kind.toCode ++ ',' :: intDecimalChars h.depth] := by
      unfold qos_to_key_expr
      simp only [List.append_assoc, List.singleton_append, List.cons_append,
        List.nil_append, List.append_nil]
      rw [splitOnChar_append ':' _ _ hk0]
      rw [splitOnChar_append ':' _ _ hkr]
      rw [splitOnChar_append ':' _ _ hkd]
      rw [splitOnChar_no_sep ':' _ hkh]
      try rfl
    unfold key_expr_to_qos
    rw [hsplit]
    simp only [hkE, List.isEmpty_nil, natDecimalChars_isEmpty, Bool.false_eq_true,
      if_false, if_true, parseU32_relKind, relKind_fromCode_toCode,
      parseU32_durKind, durKind_fromCode_toCode]
    have hempty : (natDecimalChars h.kind.toCode ++ ',' :: intDecimalChars h.depth).isEmpty
        = false := by
      rcases hk : natDecimalChars h.kind.toCode with _ | ⟨c, t⟩ <;> rfl
    rw [hempty]
    simp only [Bool.false_eq_true, if_false]
    rw [splitOnceChar_append ',' _ _ (natDecimalChars_no_char h.kind.toCode ',' (by decide))]
    simp only [parseU32_histKind, parseI32chars_intDecimalChars h.depth hd1 hd2,
      histKind_fromCode_toCode]
    rfl

/-- C8 counterexample: a Qos setting only tracked fields whose reliability
has max blocking time 0 does not round-trip — the parser restores the 100 ms
default — refuting the unconditional inverse claim. -/
theorem C8_cex_test :
    key_expr_to_qos (qos_to_key_expr false
        { reliability := some { kind := .RELIABLE, max_blocking_time := 0 },
          durability := none, history := none, durability_service := none })
      ≠ .ok (false,
        { reliability := some { kind := .RELIABLE, max_blocking_time := 0 },
          durability := none, history := none, durability_service := none }) := by
  decide

/-- C8 witness: the amended round trip at a concrete QoS. -/
theorem C8_witness_test :
    key_expr_to_qos (qos_to_key_expr true c8q) = .ok (true, c8q) :=
  C8_amended_test true c8q rfl
    (fun r hr => by
      have hr' : some ({ kind := .BEST_EFFORT, max_blocking_time := DDS_100MS_DURATION }
          : Reliability) = some r := hr
      rw [← Option.some.inj hr'])
    (fun h hh => by
      have hh' : some ({ kind := .KEEP_LAST, depth := 5 } : History) = some h := hh
      rw [← Option.some.inj hh']
      constructor <;> decide)

/-- C9 witness: keyed KEEP_LAST 5 with max_instances 10 gives depth 50, and
keyless KEEP_LAST 5 gives depth 5. -/
theorem C9_witness_test :
    routePublisherCacheHistory false c9q
      = some (claimedCacheDepth false .KEEP_LAST 5
          (get_durability_service_or_default c9q).max_instances)
    ∧ claimedCacheDepth false .KEEP_LAST 5
        (get_durability_service_or_default c9q).max_instances = 50
    ∧ routePublisherCacheHistory true c9q
      = some (claimedCacheDepth true .KEEP_LAST 5
          (get_durability_service_or_default c9q).max_instances)
    ∧ claimedCacheDepth true .KEEP_LAST 5
        (get_durability_service_or_default c9q).max_instances = 5 :=
  ⟨C9_test false c9q .KEEP_LAST 5 (by decide) (by decide) (by decide) (by decide),
   by decide,
   C9_test true c9q .KEEP_LAST 5 (by decide) (by decide) (by decide) (by decide),
   by decide⟩

/-- C6 witness: the theorem applied to a concrete fresh node. -/
theorem C6_witness_test :
    serviceSrvEventComplete (c6node.update_service_srv_req_reader "s" "T" 5).2 = true
    ∧ serviceSrvEventComplete (c6node.update_service_srv_rep_writer "s" "T" 5).2 = true
    ∧ (c6node.update_service_srv_req_reader "s" "T" 5).2 = none
    ∧ ((alookup (c6node.update_service_srv_req_reader "s" "T" 5).1.service_srv "s").map
         ServiceSrv.is_complete) = some false
    ∧ (c6node.update_service_srv_rep_writer "s" "T" 5).2 = none
    ∧ ((alookup (c6node.update_service_srv_rep_writer "s" "T" 5).1.service_srv "s").map
         ServiceSrv.is_complete) = some false
    ∧ (((c6node.update_service_srv_req_reader "s" "T" 5).1).update_service_srv_rep_writer
          "s" "T" 6).2
        = some (.DiscoveredServiceSrv c6node.fullname
            { name := "s", typ := "T",
              entities := { req_reader := 5, rep_writer := 6 } }) :=
  C6_test c6node c6node "s" "T" 5 6 (by decide) (by decide) (by decide)

/-- C10: `update_with_reader` and `update_with_writer` panic (modelled as
returning none) exactly when the endpoint's topic name is shorter than 3
characters, from the unconditional `topic_name[..3]` and `topic_name[2..]`
slices. -/
theorem C10_thm (n : NodeInfo) (entity : DdsEntity) :
    (n.update_with_reader entity = none ↔ entity.topic_name.length < 3)
    ∧ (n.update_with_writer entity = none ↔ entity.topic_name.length < 3) := by
  by_cases h : entity.topic_name.length < 3
  · obtain ⟨h1, h2⟩ := C10_test n entity h
    exact ⟨⟨fun _ => h, fun _ => h1⟩, ⟨fun _ => h, fun _ => h2⟩⟩
  · obtain ⟨h1, h2⟩ := C10_test2 n entity (by omega)
    refine ⟨⟨?_, fun hl => absurd hl h⟩, ⟨?_, fun hl => absurd hl h⟩⟩
    · intro he
      rw [he] at h1
      cases h1
    · intro he
      rw [he] at h2
      cases h2
